import Mathlib

/-!
# Verification of `V2TenantBootstrapService` (rbac/management/tenant_service/v2.py)

A shallow embedding of the tenant-bootstrapping service.  Pure helpers of the
source become Lean functions; the Django ORM state (tenants, tenant mappings,
workspaces, principals, groups) becomes an explicit `DB` record; the
`RelationReplicator` collaborator becomes an append-only event log carried in
the service state; a raised exception becomes `Except.error`.  Because every
public entry point of the source runs under `transaction.atomic` and the
replicator is transactional (an event must not fire if the transaction
aborts), an `Except.error` result carries no successor state: the caller keeps
the pre-call state, which models the rollback.

Randomly generated identifiers (workspace UUID primary keys, the four UUIDs a
`TenantMapping` generates) are modelled by deterministic tag functions of the
tenant's `org_id`.  The only properties of the generated identifiers the
source relies on are: they are fixed at object instantiation (before
persistence), and they are distinct across roles and tenants.  The tag
functions have both properties.
-/

namespace Rbac

/-- Wire-level relationship tuple, as built by `create_relationship` in
`migration_tool/utils.py`:
`(resource_type_namespace, resource_type_name, resource_id, relation,
subject_type_namespace, subject_type_name, subject_id, subject_relation?)`. -/
structure Relationship where
  resource_namespace : String
  resource_type_name : String
  resource_id : String
  relation : String
  subject_namespace : String
  subject_type_name : String
  subject_id : String
  subject_relation : Option String
deriving DecidableEq, Repr

/-- Modelled from the spec: `create_relationship` (migration_tool/utils.py, not
under src/) packs its arguments into the wire tuple shape of §6. -/
def create_relationship (resource : String × String) (resource_id : String)
    (subject : String × String) (subject_id : String) (relation : String)
    (subject_relation : Option String) : Relationship :=
  { resource_namespace := resource.1
    resource_type_name := resource.2
    resource_id := resource_id
    relation := relation
    subject_namespace := subject.1
    subject_type_name := subject.2
    subject_id := subject_id
    subject_relation := subject_relation }

/-- The closed set of replication event kinds
(`ReplicationEventType` in management/relation_replicator). -/
inductive ReplicationEventType where
  | BOOTSTRAP_TENANT
  | BULK_BOOTSTRAP_TENANT
  | EXTERNAL_USER_UPDATE
  | BULK_EXTERNAL_USER_UPDATE
deriving DecidableEq, Repr

/-- Replication event envelope.  The free-form diagnostic `info` map of the
source is not modelled; no claim mentions it. -/
structure ReplicationEvent where
  event_type : ReplicationEventType
  partition_key : String
  add : List Relationship
  remove : List Relationship
deriving DecidableEq, Repr

/-- Django settings the service reads. -/
structure Settings where
  ENV_NAME : String
  PRINCIPAL_USER_DOMAIN : String
deriving DecidableEq, Repr

/-- `PartitionKey.byEnvironment()`: one logical partition per deployment
environment. -/
def PartitionKey.byEnvironment (st : Settings) : String :=
  st.ENV_NAME

/-- A group row (management/group/model.py).  `policies` carries the UUIDs of
the group's attached policies; the source reads a single attached policy with
`.policies.get()`. -/
structure Group where
  uuid : String
  platform_default : Bool
  admin_default : Bool
  system : Bool
  tenant_id : Nat
  policies : List String
deriving DecidableEq, Repr

/-- A tenant row (api/models.py).  `id` is the surrogate primary key.
`platform_default_groups` models the *prefetched attribute* set only by
`_get_or_bootstrap_tenants`'s `Prefetch(..., to_attr="platform_default_groups")`:
`none` means the Python object has no such attribute (`hasattr` is false),
`some l` means the attribute holds list `l`. -/
structure Tenant where
  id : Nat
  org_id : String
  account_id : Option String
  tenant_name : String
  ready : Bool
  platform_default_groups : Option (List Group)
deriving DecidableEq, Repr

/-- `hasattr(tenant, "platform_default_groups") and tenant.platform_default_groups`:
attribute present and non-empty (an empty Python list is falsy). -/
def Tenant.has_custom_default_group (t : Tenant) : Bool :=
  match t.platform_default_groups with
  | some (_ :: _) => true
  | _ => false

/-- The four generated identifiers of a `TenantMapping`, deterministic per
tenant (see the file header). -/
def default_group_uuid_of (org_id : String) : String :=
  "default-group:" ++ org_id

def default_admin_group_uuid_of (org_id : String) : String :=
  "default-admin-group:" ++ org_id

def default_role_binding_uuid_of (org_id : String) : String :=
  "default-role-binding:" ++ org_id

def default_admin_role_binding_uuid_of (org_id : String) : String :=
  "default-admin-role-binding:" ++ org_id

/-- A tenant-mapping row (management/tenant_mapping/model.py): 1:1 with
`Tenant`, holding the four generated identifiers. -/
structure TenantMapping where
  tenant_id : Nat
  default_group_uuid : String
  default_admin_group_uuid : String
  default_role_binding_uuid : String
  default_admin_role_binding_uuid : String
deriving DecidableEq, Repr

/-- `TenantMapping(tenant=..., **kwargs)`: the group UUID defaults are
generated unless `default_group_uuid` is overridden (as
`_bootstrap_tenants` does for a tenant with a custom platform default
group). -/
def TenantMapping.new (t : Tenant) (custom_default_group_uuid : Option String) :
    TenantMapping :=
  { tenant_id := t.id
    default_group_uuid := custom_default_group_uuid.getD (default_group_uuid_of t.org_id)
    default_admin_group_uuid := default_admin_group_uuid_of t.org_id
    default_role_binding_uuid := default_role_binding_uuid_of t.org_id
    default_admin_role_binding_uuid := default_admin_role_binding_uuid_of t.org_id }

inductive Workspace.Types where
  | ROOT
  | DEFAULT
deriving DecidableEq, Repr

/-- A workspace row (management/workspace/model.py).  The UUID primary key is
fixed at object instantiation, before `save`. -/
structure Workspace where
  id : String
  tenant_id : Nat
  type : Workspace.Types
  parent_id : Option String
  name : String
deriving DecidableEq, Repr

def root_workspace_id_of (org_id : String) : String :=
  "root-workspace:" ++ org_id

def default_workspace_id_of (org_id : String) : String :=
  "default-workspace:" ++ org_id

/-- A principal row (management/principal/model.py), keyed by
(tenant, username).  `group` is the many-to-many group membership
(`principal.group.all()`); it lives on the principal side here, so deleting
the principal removes the memberships, as `group.principals.remove(principal)`
followed by `principal.delete()` does in the source. -/
structure Principal where
  tenant_org_id : String
  username : String
  user_id : Option String
  group : List Group
deriving DecidableEq, Repr

/-- A user record handed in by the caller (api/models.py `User`). -/
structure User where
  username : String
  user_id : Option String
  org_id : Option String
  account : Option String
  admin : Bool
  is_active : Bool
  is_service_account : Bool
deriving DecidableEq, Repr

/-- Modelled from the spec: `Group.relationship_to_user_id_for_group`
(management/group/model.py, not under src/) builds the group-membership edge
from the group identified by `group_uuid` to the user identified by
`user_id`. -/
def Group.relationship_to_user_id_for_group (group_uuid : String) (user_id : String) :
    Relationship :=
  create_relationship ("rbac", "group") group_uuid ("rbac", "principal") user_id
    "member" none

/-- Modelled from the spec: `Group.relationship_to_principal`
(management/group/model.py, not under src/) builds the group-membership edge
from a group to a principal's user identity. -/
def Group.relationship_to_principal (g : Group) (p : Principal) : Relationship :=
  create_relationship ("rbac", "group") g.uuid ("rbac", "principal")
    (p.user_id.getD "") "member" none

/-- `_default_group_tuple_edits`: the tuples to add and remove for a user.
Always add the default-group membership edge; add the admin-group edge if the
user is an admin, otherwise remove it (prior admin state is unknown). -/
def default_group_tuple_edits (user : User) (mapping : TenantMapping) :
    Except String (List Relationship × List Relationship) :=
  match user.user_id with
  | none => .error ("User " ++ user.username ++ " has no user_id.")
  | some user_id =>
    let tuples_to_add :=
      [Group.relationship_to_user_id_for_group mapping.default_group_uuid user_id]
    if user.admin then
      .ok (tuples_to_add ++
        [Group.relationship_to_user_id_for_group mapping.default_admin_group_uuid user_id], [])
    else
      .ok (tuples_to_add,
        [Group.relationship_to_user_id_for_group mapping.default_admin_group_uuid user_id])

/-- The relational database visible to the service. `next_tenant_id` allocates
surrogate primary keys for newly created tenant rows. -/
structure DB where
  tenants : List Tenant
  mappings : List TenantMapping
  workspaces : List Workspace
  principals : List Principal
  groups : List Group
  next_tenant_id : Nat
deriving DecidableEq, Repr

/-- The state a `V2TenantBootstrapService` instance acts on: the database, the
replicator's event log, the warning log, the optional `public_tenant` handed to
(or cached by) the constructor, and the two per-instance policy-UUID caches. -/
structure ServiceState where
  settings : Settings
  db : DB
  events : List ReplicationEvent
  log : List String
  public_tenant : Option Tenant
  platform_default_policy_uuid : Option String
  admin_default_policy_uuid : Option String
deriving DecidableEq, Repr

/-- `logger.warning(...)`: append to the warning log. -/
def log_warning (s : ServiceState) (msg : String) : ServiceState :=
  { s with log := s.log ++ [msg] }

/-- `self._replicator.replicate(event)`: append to the replicator's log.  The
replicator is transactional, so this only ever happens on a path that returns
`Except.ok`. -/
def replicate (s : ServiceState) (e : ReplicationEvent) : ServiceState :=
  { s with events := s.events ++ [e] }

/-- `Workspace.save(force_insert=True)`: a plain insert; a duplicate primary
key is an integrity error. -/
def workspace_force_insert (db : DB) (w : Workspace) : Except String DB :=
  if db.workspaces.any (fun w0 => w0.id == w.id) then
    .error "IntegrityError: duplicate workspace id"
  else
    .ok { db with workspaces := db.workspaces ++ [w] }

/-- `TenantMapping.objects.create(tenant=tenant)`: a uniqueness-constrained
insert; a concurrent (or prior) mapping for the same tenant makes the insert,
and hence the whole transaction, fail. -/
def tenant_mapping_create (db : DB) (t : Tenant) :
    Except String (DB × TenantMapping) :=
  if db.mappings.any (fun m => m.tenant_id == t.id) then
    .error "IntegrityError: duplicate tenant mapping"
  else
    let m := TenantMapping.new t none
    .ok ({ db with mappings := db.mappings ++ [m] }, m)

/-- `TenantMapping.objects.filter(tenant=tenant)` rows (the mapping is keyed by
the tenant's surrogate id). -/
def mappings_for_tenant (db : DB) (t : Tenant) : List TenantMapping :=
  db.mappings.filter (fun m => m.tenant_id == t.id)

/-- `TenantMapping.objects.filter(tenant__org_id=org_id)` rows: a join through
the tenant table on `org_id` (`none` matches no row; `org_id` is a non-null
column). -/
def mappings_for_org (db : DB) (org_id : Option String) : List TenantMapping :=
  db.mappings.filter (fun m =>
    db.tenants.any (fun t => t.id == m.tenant_id &&
      match org_id with
      | some o => t.org_id == o
      | none => false))

/-- `Principal.objects.filter(username=..., tenant__org_id=...)` rows. -/
def principals_for (db : DB) (org_id : Option String) (username : String) :
    List Principal :=
  db.principals.filter (fun p =>
    p.username == username &&
      match org_id with
      | some o => p.tenant_org_id == o
      | none => false)

/-- `self._get_public_tenant()`: use the constructor-supplied tenant, else look
up (and cache) the tenant named `public`; `Tenant.objects.get` raises when the
row is absent or not unique. -/
def get_public_tenant (s : ServiceState) : Except String (ServiceState × Tenant) :=
  match s.public_tenant with
  | some t => .ok (s, t)
  | none =>
    match s.db.tenants.filter (fun t => t.tenant_name == "public") with
    | [t] => .ok ({ s with public_tenant := some t }, t)
    | [] => .error "Tenant.DoesNotExist: public tenant"
    | _ => .error "Tenant.MultipleObjectsReturned: public tenant"

/-- `self._get_platform_default_policy_uuid()`: read-once cached resolution of
the public tenant's `platform_default` system group's single policy.
`Group.DoesNotExist` is caught and yields `none`; a missing public tenant or a
group without exactly one policy raises out of the caller. -/
def get_platform_default_policy_uuid (s : ServiceState) :
    Except String (ServiceState × Option String) :=
  match s.platform_default_policy_uuid with
  | some u => .ok (s, some u)
  | none => do
    let (s1, pub) ← get_public_tenant s
    match s1.db.groups.filter
        (fun g => g.platform_default && g.system && g.tenant_id == pub.id) with
    | [] => .ok (s1, none)
    | [g] =>
      match g.policies with
      | [policy_uuid] =>
        .ok ({ s1 with platform_default_policy_uuid := some policy_uuid },
          some policy_uuid)
      | _ => .error "Policy.objects.get failed"
    | _ => .error "Group.MultipleObjectsReturned"

/-- `self._get_admin_default_policy_uuid()`: as above for the `admin_default`
system group. -/
def get_admin_default_policy_uuid (s : ServiceState) :
    Except String (ServiceState × Option String) :=
  match s.admin_default_policy_uuid with
  | some u => .ok (s, some u)
  | none => do
    let (s1, pub) ← get_public_tenant s
    match s1.db.groups.filter
        (fun g => g.admin_default && g.system && g.tenant_id == pub.id) with
    | [] => .ok (s1, none)
    | [g] =>
      match g.policies with
      | [policy_uuid] =>
        .ok ({ s1 with admin_default_policy_uuid := some policy_uuid },
          some policy_uuid)
      | _ => .error "Policy.objects.get failed"
    | _ => .error "Group.MultipleObjectsReturned"

/-- The `BootstrappedTenant` result dataclass
(management/tenant_service/tenant_service.py). -/
structure BootstrappedTenant where
  tenant : Tenant
  mapping : Option TenantMapping
  default_workspace : Option Workspace
  root_workspace : Option Workspace
deriving DecidableEq, Repr

/-- `_built_in_workspaces`: pure construction of the ROOT and DEFAULT
workspaces and the three workspace-hierarchy tuples.  Workspace ids are fixed
at instantiation, before persistence. -/
def built_in_workspaces (st : Settings) (tenant : Tenant) :
    Workspace × Workspace × List Relationship :=
  let root : Workspace :=
    { id := root_workspace_id_of tenant.org_id
      tenant_id := tenant.id
      type := .ROOT
      parent_id := none
      name := "Root Workspace" }
  let dflt : Workspace :=
    { id := default_workspace_id_of tenant.org_id
      tenant_id := tenant.id
      type := .DEFAULT
      parent_id := some root.id
      name := "Default Workspace" }
  let tenant_res_id := st.PRINCIPAL_USER_DOMAIN ++ "/" ++ tenant.org_id
  (root, dflt,
    [ create_relationship ("rbac", "workspace") dflt.id
        ("rbac", "workspace") root.id "parent" none,
      create_relationship ("rbac", "workspace") root.id
        ("rbac", "tenant") tenant_res_id "parent" none,
      create_relationship ("rbac", "tenant") tenant_res_id
        ("rbac", "platform") st.ENV_NAME "platform" none ])

/-- `_create_default_relation_tuples`: the three tuples of one role binding. -/
def create_default_relation_tuples (default_workspace_id : String)
    (role_binding_uuid : String) (default_role_uuid : String)
    (default_group_uuid : String) : List Relationship :=
  [ create_relationship ("rbac", "workspace") default_workspace_id
      ("rbac", "role_binding") role_binding_uuid "binding" none,
    create_relationship ("rbac", "role_binding") role_binding_uuid
      ("rbac", "role") default_role_uuid "role" none,
    create_relationship ("rbac", "role_binding") role_binding_uuid
      ("rbac", "group") default_group_uuid "subject" (some "member") ]

/-- The warning `_bootstrap_default_access` logs when the platform default
policy does not resolve. -/
def platform_warning : String :=
  "No platform default role found for public tenant. Default access will not be set up."

/-- The warning `_bootstrap_default_access` logs when the admin default policy
does not resolve. -/
def admin_warning : String :=
  "No admin default role found for public tenant. Default access will not be set up."

/-- `_bootstrap_default_access`: resolve the two platform-wide default
policies (warning-and-omit when a group is missing), then emit the user role
binding only when the tenant has no prefetched custom platform-default group,
and the admin role binding unconditionally when its policy resolved. -/
def bootstrap_default_access (s0 : ServiceState) (tenant : Tenant)
    (mapping : TenantMapping) (default_workspace_id : String) :
    Except String (ServiceState × List Relationship) := do
  let (s1, platform_default_role_uuid) ← get_platform_default_policy_uuid s0
  let (s2, admin_default_role_uuid) ← get_admin_default_policy_uuid s1
  let s3 :=
    if platform_default_role_uuid.isNone then log_warning s2 platform_warning
    else s2
  let s4 :=
    if admin_default_role_uuid.isNone then log_warning s3 admin_warning
    else s3
  let user_tuples :=
    match platform_default_role_uuid with
    | some role_uuid =>
      if tenant.has_custom_default_group then []
      else
        create_default_relation_tuples default_workspace_id
          mapping.default_role_binding_uuid role_uuid mapping.default_group_uuid
    | none => []
  let admin_tuples :=
    match admin_default_role_uuid with
    | some role_uuid =>
      create_default_relation_tuples default_workspace_id
        mapping.default_admin_role_binding_uuid role_uuid
        mapping.default_admin_group_uuid
    | none => []
  .ok (s4, user_tuples ++ admin_tuples)

/-- `_bootstrap_tenant`: refuse the public tenant; insert the two built-in
workspaces and the uniqueness-constrained mapping; compute default access;
emit one `BOOTSTRAP_TENANT` event with all the tuples. -/
def bootstrap_tenant_inner (s0 : ServiceState) (tenant : Tenant) :
    Except String (ServiceState × BootstrappedTenant) := do
  if tenant.tenant_name = "public" then
    throw "Cannot bootstrap public tenant."
  let (root_workspace, default_workspace, relationships) :=
    built_in_workspaces s0.settings tenant
  let db1 ← workspace_force_insert s0.db root_workspace
  let db2 ← workspace_force_insert db1 default_workspace
  let (db3, mapping) ← tenant_mapping_create db2 tenant
  let s1 := { s0 with db := db3 }
  let (s2, access) ← bootstrap_default_access s1 tenant mapping default_workspace.id
  let s3 := replicate s2
    { event_type := .BOOTSTRAP_TENANT
      partition_key := PartitionKey.byEnvironment s2.settings
      add := relationships ++ access
      remove := [] }
  .ok (s3,
    { tenant := tenant
      mapping := some mapping
      default_workspace := some default_workspace
      root_workspace := some root_workspace })

/-- `bootstrap_tenant`: the idempotent public entry point — fast path on an
existing mapping, else `_bootstrap_tenant`. -/
def bootstrap_tenant (s : ServiceState) (tenant : Tenant) :
    Except String (ServiceState × BootstrappedTenant) :=
  match mappings_for_tenant s.db tenant with
  | [mapping] =>
    .ok (s,
      { tenant := tenant
        mapping := some mapping
        default_workspace := none
        root_workspace := none })
  | [] => bootstrap_tenant_inner s tenant
  | _ => .error "TenantMapping.MultipleObjectsReturned"

/-- `new_bootstrapped_tenant`: insert a fresh tenant row (org_id is unique)
and run the bootstrap path on it. -/
def new_bootstrapped_tenant (s : ServiceState) (org_id : String)
    (account_number : Option String) :
    Except String (ServiceState × BootstrappedTenant) := do
  if s.db.tenants.any (fun t => t.org_id == org_id) then
    throw "IntegrityError: duplicate org_id"
  let tenant : Tenant :=
    { id := s.db.next_tenant_id
      org_id := org_id
      account_id := account_number
      tenant_name := ""
      ready := false
      platform_default_groups := none }
  let db1 := { s.db with
    tenants := s.db.tenants ++ [tenant]
    next_tenant_id := s.db.next_tenant_id + 1 }
  bootstrap_tenant_inner { s with db := db1 } tenant

/-- `_get_or_bootstrap_tenant`: `get_or_create` the tenant row by `org_id`
(with name `org<id>` and `ready` on creation), then fast path on an existing
mapping or `_bootstrap_tenant`. -/
def get_or_bootstrap_tenant (s : ServiceState) (org_id : String)
    (account_number : Option String) :
    Except String (ServiceState × BootstrappedTenant) := do
  let (s1, tenant) ←
    match s.db.tenants.filter (fun t => t.org_id == org_id) with
    | [t] => Except.ok (s, t)
    | [] =>
      let tenant : Tenant :=
        { id := s.db.next_tenant_id
          org_id := org_id
          account_id := account_number
          tenant_name := "org" ++ org_id
          ready := true
          platform_default_groups := none }
      Except.ok ({ s with db := { s.db with
        tenants := s.db.tenants ++ [tenant]
        next_tenant_id := s.db.next_tenant_id + 1 } }, tenant)
    | _ => Except.error "Tenant.MultipleObjectsReturned"
  match mappings_for_tenant s1.db tenant with
  | [mapping] =>
    .ok (s1,
      { tenant := tenant
        mapping := some mapping
        default_workspace := none
        root_workspace := none })
  | [] => bootstrap_tenant_inner s1 tenant
  | _ => .error "TenantMapping.MultipleObjectsReturned"

/-- Modelled from the spec: `_ensure_principal_with_user_id_in_tenant`
(management/tenant_service/tenant_service.py, not under src/) ensures a local
Principal record exists for the user in the tenant (created only when
`upsert`) and carries the user's external user id. -/
def ensure_principal_with_user_id_in_tenant (db : DB) (user : User)
    (tenant : Tenant) (upsert : Bool) : DB :=
  match principals_for db (some tenant.org_id) user.username with
  | p :: _ =>
    if p.user_id == user.user_id then db
    else
      { db with principals := db.principals.map (fun q =>
          if q.tenant_org_id == p.tenant_org_id && q.username == p.username then
            { q with user_id := user.user_id }
          else q) }
  | [] =>
    if upsert then
      { db with principals := db.principals ++
          [{ tenant_org_id := tenant.org_id
             username := user.username
             user_id := user.user_id
             group := [] }] }
    else db

/-- `principal.delete()`: remove the row keyed by (tenant org, username); its
many-to-many group memberships go with it. -/
def delete_principal (db : DB) (p : Principal) : DB :=
  { db with principals := db.principals.filter (fun q =>
      !(q.tenant_org_id == p.tenant_org_id && q.username == p.username)) }

/-- `_disable_user_in_tenant`: best-effort removal tuples — the
tenant-mapping-derived default-group edge when a mapping exists, one edge per
group the Principal belongs to — then delete the Principal and emit one
`EXTERNAL_USER_UPDATE` event carrying only removals. -/
def disable_user_in_tenant (s0 : ServiceState) (user : User) :
    Except String ServiceState := do
  match user.user_id with
  | none => throw ("User " ++ user.username ++ " has no user_id.")
  | some user_id =>
    let mapping_tuples ←
      (match mappings_for_org s0.db user.org_id with
       | [m] =>
         Except.ok [Group.relationship_to_user_id_for_group m.default_group_uuid user_id]
       | [] => Except.ok []
       | _ => Except.error "TenantMapping.MultipleObjectsReturned")
    let (db1, principal_tuples) ←
      (match principals_for s0.db user.org_id user.username with
       | [p] =>
         Except.ok (delete_principal s0.db p,
           p.group.map (fun g => Group.relationship_to_principal g p))
       | [] => Except.ok (s0.db, [])
       | _ => Except.error "Principal.MultipleObjectsReturned")
    let s1 := { s0 with db := db1 }
    .ok (replicate s1
      { event_type := .EXTERNAL_USER_UPDATE
        partition_key := PartitionKey.byEnvironment s1.settings
        add := []
        remove := mapping_tuples ++ principal_tuples })

/-- `update_user`: reject a user without `org_id`; route an inactive user to
the disable path; otherwise ensure the tenant is bootstrapped, reject a
missing `user_id`, upsert the Principal and compute the membership tuple edits
(both skipped for service accounts), and replicate one `EXTERNAL_USER_UPDATE`
event. -/
def update_user (s0 : ServiceState) (user : User) (upsert : Bool)
    (bootstrapped_tenant : Option BootstrappedTenant) :
    Except String (ServiceState × Option BootstrappedTenant) := do
  match user.org_id with
  | none =>
    throw ("Cannot update user without org_id. username=" ++ user.username)
  | some org_id =>
    if !user.is_active then do
      let s1 ← disable_user_in_tenant s0 user
      return (s1, none)
    else do
      let (s1, bootstrapped) ←
        match bootstrapped_tenant with
        | some b => Except.ok (s0, b)
        | none => get_or_bootstrap_tenant s0 org_id user.account
      match bootstrapped.mapping with
      | none =>
        throw ("Expected TenantMapping but got None. org_id: " ++
          bootstrapped.tenant.org_id)
      | some mapping =>
        match user.user_id with
        | none =>
          throw ("Cannot update user without user_id. username=" ++ user.username)
        | some _user_id =>
          let (s2, tuples_to_add, tuples_to_remove) ←
            if user.is_service_account then
              Except.ok (s1, [], [])
            else do
              let db1 := ensure_principal_with_user_id_in_tenant s1.db user
                bootstrapped.tenant upsert
              let (adds, removes) ← default_group_tuple_edits user mapping
              Except.ok ({ s1 with db := db1 }, adds, removes)
          let s3 := replicate s2
            { event_type := .EXTERNAL_USER_UPDATE
              partition_key := PartitionKey.byEnvironment s2.settings
              add := tuples_to_add
              remove := tuples_to_remove }
          .ok (s3, some bootstrapped)

/-- The `default_group_uuid` override `_bootstrap_tenants` passes to
`TenantMapping(**kwargs)`: the first prefetched custom platform-default
group's UUID, when the attribute is present and non-empty. -/
def custom_default_group_uuid (t : Tenant) : Option String :=
  match t.platform_default_groups with
  | some (g :: _) => some g.uuid
  | _ => none

/-- `Workspace.objects.bulk_create`: insert each row, failing on a duplicate
primary key. -/
def workspaces_bulk_create (db : DB) : List Workspace → Except String DB
  | [] => .ok db
  | w :: ws => do
    let db1 ← workspace_force_insert db w
    workspaces_bulk_create db1 ws

/-- One uniqueness-constrained `TenantMapping` insert of a pre-built row. -/
def tenant_mapping_insert (db : DB) (m : TenantMapping) : Except String DB :=
  if db.mappings.any (fun m0 => m0.tenant_id == m.tenant_id) then
    .error "IntegrityError: duplicate tenant mapping"
  else
    .ok { db with mappings := db.mappings ++ [m] }

/-- `TenantMapping.objects.bulk_create`. -/
def tenant_mappings_bulk_create (db : DB) : List TenantMapping → Except String DB
  | [] => .ok db
  | m :: ms => do
    let db1 ← tenant_mapping_insert db m
    tenant_mappings_bulk_create db1 ms

/-- The second loop of `_bootstrap_tenants`: for each (tenant, default
workspace id) pair, look the tenant's mapping up in the bulk-created batch
(a `KeyError` on a miss), compute default access, and collect the
`BootstrappedTenant` results in order. -/
def bulk_default_access_loop (s : ServiceState) (tenant_mappings : List TenantMapping) :
    List (Tenant × String) →
    Except String (ServiceState × List Relationship × List BootstrappedTenant)
  | [] => .ok (s, [], [])
  | (tenant, default_workspace_id) :: rest =>
    match tenant_mappings.find? (fun m => m.tenant_id == tenant.id) with
    | none => .error "KeyError: tenant id not in bulk-created mappings"
    | some mapping => do
      let (s1, access) ← bootstrap_default_access s tenant mapping default_workspace_id
      let (s2, rels, bts) ← bulk_default_access_loop s1 tenant_mappings rest
      .ok (s2, access ++ rels,
        { tenant := tenant
          mapping := some mapping
          default_workspace := none
          root_workspace := none } :: bts)

/-- `_bootstrap_tenants` (bulk): build every tenant's mapping (reusing a
prefetched custom platform-default group's UUID when present) and built-in
workspaces, bulk-insert them, compute default access per tenant, and emit one
`BULK_BOOTSTRAP_TENANT` event whose add-list is all the workspace-hierarchy
tuples followed by all the default-access tuples. -/
def bootstrap_tenants_bulk (s0 : ServiceState) (tenants : List Tenant) :
    Except String (ServiceState × List BootstrappedTenant) := do
  let mappings_to_create := tenants.map (fun t =>
    TenantMapping.new t (custom_default_group_uuid t))
  let workspaces := (tenants.map (fun t =>
    let (root, dflt, _) := built_in_workspaces s0.settings t
    [root, dflt])).flatten
  let hierarchy := (tenants.map (fun t =>
    (built_in_workspaces s0.settings t).2.2)).flatten
  let pairs := tenants.zip (tenants.map (fun t =>
    (built_in_workspaces s0.settings t).2.1.id))
  let db1 ← workspaces_bulk_create s0.db workspaces
  let db2 ← tenant_mappings_bulk_create db1 mappings_to_create
  let (s1, access, bootstrapped_tenants) ←
    bulk_default_access_loop { s0 with db := db2 } mappings_to_create pairs
  let s2 := replicate s1
    { event_type := .BULK_BOOTSTRAP_TENANT
      partition_key := PartitionKey.byEnvironment s1.settings
      add := hierarchy ++ access
      remove := [] }
  .ok (s2, bootstrapped_tenants)

/-- The prefetched variant of a tenant row as `_get_or_bootstrap_tenants`
sees it: the `platform_default_groups` attribute holds the tenant's
`platform_default` groups. -/
def with_platform_default_prefetch (db : DB) (t : Tenant) : Tenant :=
  { t with
    platform_default_groups :=
      some (db.groups.filter (fun g => g.tenant_id == t.id && g.platform_default)) }

/-- `_get_or_bootstrap_tenants`: split the existing tenants of the requested
org ids into already-mapped (fast path) and to-bootstrap, bulk-create rows for
org ids with no tenant at all, and bulk-bootstrap the rest. -/
def get_or_bootstrap_tenants (s0 : ServiceState) (org_ids : List String) :
    Except String (ServiceState × List BootstrappedTenant) := do
  let existing := (s0.db.tenants.filter (fun t => org_ids.contains t.org_id)).map
    (with_platform_default_prefetch s0.db)
  let fast_path := existing.filterMap (fun t =>
    (mappings_for_tenant s0.db t).head?.map (fun m =>
      ({ tenant := t
         mapping := some m
         default_workspace := none
         root_workspace := none } : BootstrappedTenant)))
  let to_bootstrap_existing := existing.filter (fun t =>
    (mappings_for_tenant s0.db t).isEmpty)
  let new_org_ids := org_ids.filter (fun o =>
    !(existing.any (fun t => t.org_id == o)))
  let new_tenants := new_org_ids.enum.map (fun (i, o) =>
    ({ id := s0.db.next_tenant_id + i
       org_id := o
       account_id := none
       tenant_name := "org" ++ o
       ready := true
       platform_default_groups := none } : Tenant))
  let s1 := { s0 with db := { s0.db with
    tenants := s0.db.tenants ++ new_tenants
    next_tenant_id := s0.db.next_tenant_id + new_tenants.length } }
  let (s2, bootstrapped) ← bootstrap_tenants_bulk s1 (to_bootstrap_existing ++ new_tenants)
  .ok (s2, fast_path ++ bootstrapped)

/-- The first loop of `import_bulk_users`: collect the distinct org ids of the
active users, warning (and skipping) on a missing org id. -/
def collect_org_ids (users : List User) : List String × List String :=
  users.foldl
    (fun (acc : List String × List String) user =>
      if !user.is_active then acc
      else
        match user.org_id with
        | none =>
          (acc.1, acc.2 ++
            ["Cannot update user without org_id. Skipping. username=" ++ user.username])
        | some o => (if acc.1.contains o then acc.1 else acc.1 ++ [o], acc.2))
    ([], [])

/-- The second loop of `import_bulk_users`: per active user with an org id,
look up the bootstrapped tenant (a `KeyError` on a miss), stage a `user_id`
update for an existing Principal whose `user_id` differs, and accumulate the
membership tuple edits in user order. -/
def import_bulk_users_loop (bts : List BootstrappedTenant) :
    List ((String × String) × Principal) → List (String × String) →
    List Relationship → List Relationship → List String → List User →
    Except String (List ((String × String) × Principal) × List (String × String) ×
      List Relationship × List Relationship × List String)
  | existing, to_update, adds, removes, warns, [] =>
    .ok (existing, to_update, adds, removes, warns)
  | existing, to_update, adds, removes, warns, user :: rest =>
    if !user.is_active then
      import_bulk_users_loop bts existing to_update adds removes warns rest
    else
      match user.org_id with
      | none =>
        import_bulk_users_loop bts existing to_update adds removes
          (warns ++
            ["Cannot update user without org_id. Skipping. username=" ++ user.username])
          rest
      | some org_id =>
        match bts.find? (fun b => b.tenant.org_id == org_id) with
        | none => .error "KeyError: org_id not bootstrapped"
        | some bootstrapped =>
          let key := (org_id, user.username)
          let staged :=
            match existing.find? (fun e => e.1 == key) with
            | some (_, principal) =>
              if principal.user_id != user.user_id then
                (existing.map (fun (e : (String × String) × Principal) =>
                   if e.1 == key then (e.1, { e.2 with user_id := user.user_id })
                   else e),
                 to_update ++ [key])
              else (existing, to_update)
            | none => (existing, to_update)
          match bootstrapped.mapping with
          | none => .error ("Expected TenantMapping but got None. org_id: " ++ org_id)
          | some mapping => do
            let (sub_add, sub_remove) ← default_group_tuple_edits user mapping
            import_bulk_users_loop bts staged.1 staged.2
              (adds ++ sub_add) (removes ++ sub_remove) warns rest

/-- `Principal.objects.bulk_update(principals_to_update, ["user_id"])`: write
the staged `user_id` of every staged row back to the table. -/
def apply_principal_updates (db : DB)
    (existing : List ((String × String) × Principal))
    (to_update : List (String × String)) : DB :=
  { db with principals := db.principals.map (fun p =>
      if to_update.contains (p.tenant_org_id, p.username) then
        match existing.find? (fun e => e.1 == (p.tenant_org_id, p.username)) with
        | some (_, q) => q
        | none => p
      else p) }

/-- `import_bulk_users`: bootstrap the union of the active users' tenants in
one pass, prefetch their existing Principals, accumulate one combined
add/remove tuple set over all users, bulk-update changed Principals, and emit
a single `BULK_EXTERNAL_USER_UPDATE` event. -/
def import_bulk_users (s0 : ServiceState) (users : List User) :
    Except String ServiceState := do
  let (org_ids, warnings1) := collect_org_ids users
  let s1 := { s0 with log := s0.log ++ warnings1 }
  let (s2, bootstrapped_list) ← get_or_bootstrap_tenants s1 org_ids
  let tenant_orgs := bootstrapped_list.map (fun b => b.tenant.org_id)
  let usernames := users.map (fun u => u.username)
  let existing := (s2.db.principals.filter (fun p =>
      tenant_orgs.contains p.tenant_org_id && usernames.contains p.username)).map
    (fun p => ((p.tenant_org_id, p.username), p))
  let (existing1, to_update, tuples_to_add, tuples_to_remove, warnings2) ←
    import_bulk_users_loop bootstrapped_list existing [] [] [] [] users
  let db1 := apply_principal_updates s2.db existing1 to_update
  let s3 := { s2 with db := db1, log := s2.log ++ warnings2 }
  .ok (replicate s3
    { event_type := .BULK_EXTERNAL_USER_UPDATE
      partition_key := PartitionKey.byEnvironment s3.settings
      add := tuples_to_add
      remove := tuples_to_remove })

/-- The membership tuple edits computed for an active non-service-account
user of a freshly bootstrapped org: `_default_group_tuple_edits` against a
mapping whose group identifiers are the generated ones for the user's org.
Used to compare the single-user path and the bulk path pairwise by user. -/
def per_user_edits (u : User) : List Relationship × List Relationship :=
  match u.org_id, u.user_id with
  | some org, some uid =>
    ([Group.relationship_to_user_id_for_group (default_group_uuid_of org) uid] ++
       (if u.admin then
         [Group.relationship_to_user_id_for_group (default_admin_group_uuid_of org) uid]
        else []),
     if u.admin then []
     else [Group.relationship_to_user_id_for_group (default_admin_group_uuid_of org) uid])
  | _, _ => ([], [])

/-- The tenant row `_get_or_bootstrap_tenants` bulk-creates for the `i`-th
new org id `o` (`Tenant(tenant_name=f"org{org_id}", org_id=org_id,
ready=True)` with a surrogate key allocated from `base`): named here so the
rows created from `new_org_ids.enum` can be reasoned about uniformly. -/
def enum_tenant_row (base : Nat) (p : Nat × String) : Tenant :=
  { id := base + p.1
    org_id := p.2
    account_id := none
    tenant_name := "org" ++ p.2
    ready := true
    platform_default_groups := none }

/-! ## Concrete fixtures

A small deployment used to evaluate the theorems on concrete inputs: a public
tenant carrying the two system default groups (each with one policy), one
ordinary tenant `o1`, and a few users. -/

def fix_settings : Settings :=
  { ENV_NAME := "env", PRINCIPAL_USER_DOMAIN := "redhat" }

def fix_public : Tenant :=
  { id := 0, org_id := "", account_id := none, tenant_name := "public"
    ready := true, platform_default_groups := none }

def fix_platform_group : Group :=
  { uuid := "pg", platform_default := true, admin_default := false
    system := true, tenant_id := 0, policies := ["pp"] }

def fix_admin_group : Group :=
  { uuid := "ag", platform_default := false, admin_default := true
    system := true, tenant_id := 0, policies := ["ap"] }

def fix_tenant : Tenant :=
  { id := 1, org_id := "o1", account_id := none, tenant_name := "orgo1"
    ready := true, platform_default_groups := none }

def fix_db : DB :=
  { tenants := [fix_public, fix_tenant], mappings := [], workspaces := []
    principals := [], groups := [fix_platform_group, fix_admin_group]
    next_tenant_id := 2 }

def fix_state : ServiceState :=
  { settings := fix_settings, db := fix_db, events := [], log := []
    public_tenant := none, platform_default_policy_uuid := none
    admin_default_policy_uuid := none }

def fix_mapping : TenantMapping :=
  TenantMapping.new fix_tenant none

/-- A custom (non-system) `platform_default` group owned by tenant `o1`. -/
def fix_custom_group : Group :=
  { uuid := "cg", platform_default := true, admin_default := false
    system := false, tenant_id := 1, policies := [] }

def fix_state_custom : ServiceState :=
  { fix_state with db := { fix_db with
      groups := [fix_platform_group, fix_admin_group, fix_custom_group] } }

/-- A state whose public tenant has no `platform_default` system group, so the
platform default policy cannot be resolved. -/
def fix_state_no_platform : ServiceState :=
  { fix_state with db := { fix_db with groups := [fix_admin_group] } }

/-- A state whose public tenant has no `admin_default` system group. -/
def fix_state_no_admin : ServiceState :=
  { fix_state with db := { fix_db with groups := [fix_platform_group] } }

def fix_user_admin : User :=
  { username := "alice", user_id := some "u1", org_id := some "o1"
    account := none, admin := true, is_active := true
    is_service_account := false }

def fix_user_plain : User :=
  { username := "bob", user_id := some "u2", org_id := some "o1"
    account := none, admin := false, is_active := true
    is_service_account := false }

def fix_user_svc : User :=
  { username := "svc", user_id := some "u3", org_id := some "o1"
    account := none, admin := false, is_active := true
    is_service_account := true }

def fix_user_no_org : User :=
  { username := "noorg", user_id := some "u4", org_id := none
    account := none, admin := false, is_active := true
    is_service_account := false }

def fix_user_disabled : User :=
  { username := "carl", user_id := some "u9", org_id := some "o1"
    account := none, admin := false, is_active := false
    is_service_account := false }

/-- An ordinary custom group of tenant `o1` that `fix_principal_disabled`
belongs to. -/
def fix_other_group : Group :=
  { uuid := "xg", platform_default := false, admin_default := false
    system := false, tenant_id := 1, policies := [] }

def fix_principal_disabled : Principal :=
  { tenant_org_id := "o1", username := "carl", user_id := some "u9"
    group := [fix_other_group] }

/-- A bootstrapped state for tenant `o1` (mapping present) with the disabled
user's principal on file. -/
def fix_state_disable : ServiceState :=
  { fix_state with db := { fix_db with
      mappings := [fix_mapping]
      principals := [fix_principal_disabled] } }

/-- A `BootstrappedTenant` a caller may hand to `update_user`. -/
def fix_bootstrapped : BootstrappedTenant :=
  { tenant := fix_tenant, mapping := some fix_mapping
    default_workspace := none, root_workspace := none }

/-- The state `fix_state` reaches after resolving the platform default
policy: public tenant cached, platform policy UUID cached. -/
def fix_resolved1 : ServiceState :=
  { fix_state with
    public_tenant := some fix_public
    platform_default_policy_uuid := some "pp" }

/-- The state `fix_resolved1` reaches after also resolving the admin default
policy. -/
def fix_resolved2 : ServiceState :=
  { fix_resolved1 with admin_default_policy_uuid := some "ap" }

/-- `fix_state_no_platform` after caching the public tenant. -/
def fix_noplat_pub : ServiceState :=
  { fix_state_no_platform with public_tenant := some fix_public }

/-- `fix_noplat_pub` after resolving the admin default policy. -/
def fix_noplat_adm : ServiceState :=
  { fix_noplat_pub with admin_default_policy_uuid := some "ap" }

/-- `fix_state_no_admin` after resolving the platform default policy. -/
def fix_noadm_res1 : ServiceState :=
  { fix_state_no_admin with
    public_tenant := some fix_public
    platform_default_policy_uuid := some "pp" }

/-- `fix_state_custom` after resolving the platform default policy. -/
def fix_custom_res1 : ServiceState :=
  { fix_state_custom with
    public_tenant := some fix_public
    platform_default_policy_uuid := some "pp" }

/-- `fix_custom_res1` after also resolving the admin default policy. -/
def fix_custom_res2 : ServiceState :=
  { fix_custom_res1 with admin_default_policy_uuid := some "ap" }

/-- A state for exercising bulk import: empty database (no tenants, no
mappings, no workspaces, no groups) with the two policy UUIDs already cached
on the service instance. -/
def fix_state_bulk : ServiceState :=
  { settings := fix_settings
    db := { tenants := [], mappings := [], workspaces := [], principals := []
            groups := [], next_tenant_id := 0 }
    events := [], log := []
    public_tenant := some fix_public
    platform_default_policy_uuid := some "pp"
    admin_default_policy_uuid := some "ap" }

/-! ## Basic facts about the generated identifiers -/

theorem root_ne_default_ws_id (o : String) :
    root_workspace_id_of o ≠ default_workspace_id_of o := by
  unfold root_workspace_id_of default_workspace_id_of
  intro h
  have h2 : ("root-workspace:" ++ o).data = ("default-workspace:" ++ o).data := by
    rw [h]
  simp [String.data_append] at h2

theorem org_tenant_name_ne_public (o : String) : "org" ++ o ≠ "public" := by
  intro h
  have h2 : ("org" ++ o).data = "public".data := by rw [h]
  simp [String.data_append] at h2

theorem string_append_left_cancel {a b c : String} (h : a ++ b = a ++ c) : b = c := by
  have h2 : (a ++ b).data = (a ++ c).data := by rw [h]
  simp only [String.data_append] at h2
  have h3 : b.data = c.data := List.append_cancel_left h2
  cases b; cases c
  simp only at h3
  rw [h3]

theorem root_ws_id_inj {o1 o2 : String}
    (h : root_workspace_id_of o1 = root_workspace_id_of o2) : o1 = o2 :=
  string_append_left_cancel h

theorem default_ws_id_inj {o1 o2 : String}
    (h : default_workspace_id_of o1 = default_workspace_id_of o2) : o1 = o2 :=
  string_append_left_cancel h

theorem root_ne_default_ws_id_any (o1 o2 : String) :
    root_workspace_id_of o1 ≠ default_workspace_id_of o2 := by
  unfold root_workspace_id_of default_workspace_id_of
  intro h
  have h2 : ("root-workspace:" ++ o1).data = ("default-workspace:" ++ o2).data := by
    rw [h]
  simp [String.data_append] at h2

/-! ## Frame lemmas: which parts of the state each operation can touch -/

theorem get_public_tenant_frame {s S : ServiceState} {t : Tenant}
    (h : get_public_tenant s = .ok (S, t)) :
    S.db = s.db ∧ S.events = s.events ∧ S.log = s.log ∧ S.settings = s.settings ∧
    S.platform_default_policy_uuid = s.platform_default_policy_uuid ∧
    S.admin_default_policy_uuid = s.admin_default_policy_uuid := by
  unfold get_public_tenant at h
  split at h
  · simp only [Except.ok.injEq, Prod.mk.injEq] at h
    obtain ⟨h1, -⟩ := h
    subst h1
    exact ⟨rfl, rfl, rfl, rfl, rfl, rfl⟩
  · split at h
    · simp only [Except.ok.injEq, Prod.mk.injEq] at h
      obtain ⟨h1, -⟩ := h
      subst h1
      exact ⟨rfl, rfl, rfl, rfl, rfl, rfl⟩
    · exact absurd h (by simp)
    · exact absurd h (by simp)

theorem get_platform_default_policy_uuid_frame {s S : ServiceState} {pu : Option String}
    (h : get_platform_default_policy_uuid s = .ok (S, pu)) :
    S.db = s.db ∧ S.events = s.events ∧ S.log = s.log ∧ S.settings = s.settings ∧
    S.admin_default_policy_uuid = s.admin_default_policy_uuid := by
  unfold get_platform_default_policy_uuid at h
  split at h
  · simp only [Except.ok.injEq, Prod.mk.injEq] at h
    obtain ⟨h1, -⟩ := h
    subst h1
    exact ⟨rfl, rfl, rfl, rfl, rfl⟩
  · cases hp : get_public_tenant s with
    | error e => simp [hp, bind, Except.bind] at h
    | ok r =>
      obtain ⟨s1, pub⟩ := r
      have hf := get_public_tenant_frame hp
      simp only [hp, bind, Except.bind] at h
      split at h
      · simp only [Except.ok.injEq, Prod.mk.injEq] at h
        obtain ⟨h1, -⟩ := h
        subst h1
        tauto
      · split at h
        · simp only [Except.ok.injEq, Prod.mk.injEq] at h
          obtain ⟨h1, -⟩ := h
          subst h1
          simp_all
        · exact absurd h (by simp)
      · exact absurd h (by simp)

theorem get_admin_default_policy_uuid_frame {s S : ServiceState} {au : Option String}
    (h : get_admin_default_policy_uuid s = .ok (S, au)) :
    S.db = s.db ∧ S.events = s.events ∧ S.log = s.log ∧ S.settings = s.settings ∧
    S.platform_default_policy_uuid = s.platform_default_policy_uuid := by
  unfold get_admin_default_policy_uuid at h
  split at h
  · simp only [Except.ok.injEq, Prod.mk.injEq] at h
    obtain ⟨h1, -⟩ := h
    subst h1
    exact ⟨rfl, rfl, rfl, rfl, rfl⟩
  · cases hp : get_public_tenant s with
    | error e => simp [hp, bind, Except.bind] at h
    | ok r =>
      obtain ⟨s1, pub⟩ := r
      have hf := get_public_tenant_frame hp
      simp only [hp, bind, Except.bind] at h
      split at h
      · simp only [Except.ok.injEq, Prod.mk.injEq] at h
        obtain ⟨h1, -⟩ := h
        subst h1
        tauto
      · split at h
        · simp only [Except.ok.injEq, Prod.mk.injEq] at h
          obtain ⟨h1, -⟩ := h
          subst h1
          simp_all
        · exact absurd h (by simp)
      · exact absurd h (by simp)

/-! ## Statement helpers: named projections of the builders -/

/-- The ROOT workspace `_built_in_workspaces` instantiates. -/
def root_workspace_of (st : Settings) (t : Tenant) : Workspace :=
  (built_in_workspaces st t).1

/-- The DEFAULT workspace `_built_in_workspaces` instantiates. -/
def default_workspace_of (st : Settings) (t : Tenant) : Workspace :=
  (built_in_workspaces st t).2.1

/-- The three workspace-hierarchy tuples `_built_in_workspaces` builds. -/
def hierarchy_tuples (st : Settings) (t : Tenant) : List Relationship :=
  (built_in_workspaces st t).2.2

/-- The warnings `_bootstrap_default_access` logs, as a function of the two
resolution outcomes. -/
def access_warnings (pu au : Option String) : List String :=
  (if pu.isNone then [platform_warning] else []) ++
    (if au.isNone then [admin_warning] else [])

/-- The tuples `_bootstrap_default_access` returns, as a function of the two
resolution outcomes. -/
def default_access_tuples (tenant : Tenant) (mapping : TenantMapping)
    (default_workspace_id : String) (pu au : Option String) : List Relationship :=
  (match pu with
   | some role_uuid =>
     if tenant.has_custom_default_group then []
     else
       create_default_relation_tuples default_workspace_id
         mapping.default_role_binding_uuid role_uuid mapping.default_group_uuid
   | none => []) ++
  (match au with
   | some role_uuid =>
     create_default_relation_tuples default_workspace_id
       mapping.default_admin_role_binding_uuid role_uuid
       mapping.default_admin_group_uuid
   | none => [])

/-! ## Read lemmas: policy resolution only depends on groups, tenants and the
service-instance fields, so it transfers across workspace/mapping/principal
writes -/

theorem get_public_tenant_db_congr {s s1 : ServiceState} {t : Tenant} (db' : DB)
    (hten : db'.tenants = s.db.tenants ∨ s.public_tenant.isSome)
    (h : get_public_tenant s = .ok (s1, t)) :
    get_public_tenant { s with db := db' } = .ok ({ s1 with db := db' }, t) := by
  unfold get_public_tenant at h ⊢
  cases hpt : s.public_tenant with
  | some p =>
    rw [hpt] at h
    simp only [Except.ok.injEq, Prod.mk.injEq] at h
    obtain ⟨h1, h2⟩ := h
    subst h1; subst h2
    simp [hpt]
  | none =>
    rw [hpt] at h
    rcases hten with hten | hten
    · cases hfil : List.filter (fun t => t.tenant_name == "public") s.db.tenants with
      | nil => rw [hfil] at h; exact absurd h (by simp)
      | cons a l =>
        cases l with
        | nil =>
          rw [hfil] at h
          simp only [Except.ok.injEq, Prod.mk.injEq] at h
          obtain ⟨h1, h2⟩ := h
          subst h1; subst h2
          simp only [hpt, hten, hfil]
        | cons b l2 => rw [hfil] at h; exact absurd h (by simp)
    · rw [hpt] at hten; simp at hten

theorem get_platform_db_congr {s s1 : ServiceState} {pu : Option String} (db' : DB)
    (hg : db'.groups = s.db.groups)
    (hten : db'.tenants = s.db.tenants ∨ s.public_tenant.isSome)
    (h : get_platform_default_policy_uuid s = .ok (s1, pu)) :
    get_platform_default_policy_uuid { s with db := db' } =
      .ok ({ s1 with db := db' }, pu) := by
  unfold get_platform_default_policy_uuid at h ⊢
  cases hc : s.platform_default_policy_uuid with
  | some u =>
    rw [hc] at h
    simp only [Except.ok.injEq, Prod.mk.injEq] at h
    obtain ⟨h1, h2⟩ := h
    subst h1; subst h2
    simp [hc]
  | none =>
    rw [hc] at h
    cases hp : get_public_tenant s with
    | error e => simp [hp, bind, Except.bind] at h
    | ok r =>
      obtain ⟨sp, pub⟩ := r
      have hf := get_public_tenant_frame hp
      have hp' := get_public_tenant_db_congr db' hten hp
      rw [hc] at hp'
      have hgroups : db'.groups = sp.db.groups := by rw [hg, hf.1]
      simp only [hc, hp', hp, bind, Except.bind] at h ⊢
      rw [hgroups]
      cases hfil : List.filter
          (fun g => g.platform_default && g.system && g.tenant_id == pub.id)
          sp.db.groups with
      | nil =>
        rw [hfil] at h
        simp only [Except.ok.injEq, Prod.mk.injEq] at h
        obtain ⟨h1, h2⟩ := h
        subst h1; subst h2
        rfl
      | cons g l =>
        cases l with
        | nil =>
          rw [hfil] at h
          dsimp only at h
          cases hpol : g.policies with
          | nil => rw [hpol] at h; exact absurd h (by simp)
          | cons u lp =>
            cases lp with
            | nil =>
              rw [hpol] at h
              simp only [Except.ok.injEq, Prod.mk.injEq] at h
              obtain ⟨h1, h2⟩ := h
              subst h1; subst h2
              dsimp only
              rw [hpol]
            | cons u2 lp2 => rw [hpol] at h; exact absurd h (by simp)
        | cons g2 l2 => rw [hfil] at h; exact absurd h (by simp)

theorem get_admin_db_congr {s s1 : ServiceState} {au : Option String} (db' : DB)
    (hg : db'.groups = s.db.groups)
    (hten : db'.tenants = s.db.tenants ∨ s.public_tenant.isSome)
    (h : get_admin_default_policy_uuid s = .ok (s1, au)) :
    get_admin_default_policy_uuid { s with db := db' } =
      .ok ({ s1 with db := db' }, au) := by
  unfold get_admin_default_policy_uuid at h ⊢
  cases hc : s.admin_default_policy_uuid with
  | some u =>
    rw [hc] at h
    simp only [Except.ok.injEq, Prod.mk.injEq] at h
    obtain ⟨h1, h2⟩ := h
    subst h1; subst h2
    simp [hc]
  | none =>
    rw [hc] at h
    cases hp : get_public_tenant s with
    | error e => simp [hp, bind, Except.bind] at h
    | ok r =>
      obtain ⟨sp, pub⟩ := r
      have hf := get_public_tenant_frame hp
      have hp' := get_public_tenant_db_congr db' hten hp
      rw [hc] at hp'
      have hgroups : db'.groups = sp.db.groups := by rw [hg, hf.1]
      simp only [hc, hp', hp, bind, Except.bind] at h ⊢
      rw [hgroups]
      cases hfil : List.filter
          (fun g => g.admin_default && g.system && g.tenant_id == pub.id)
          sp.db.groups with
      | nil =>
        rw [hfil] at h
        simp only [Except.ok.injEq, Prod.mk.injEq] at h
        obtain ⟨h1, h2⟩ := h
        subst h1; subst h2
        rfl
      | cons g l =>
        cases l with
        | nil =>
          rw [hfil] at h
          dsimp only at h
          cases hpol : g.policies with
          | nil => rw [hpol] at h; exact absurd h (by simp)
          | cons u lp =>
            cases lp with
            | nil =>
              rw [hpol] at h
              simp only [Except.ok.injEq, Prod.mk.injEq] at h
              obtain ⟨h1, h2⟩ := h
              subst h1; subst h2
              dsimp only
              rw [hpol]
            | cons u2 lp2 => rw [hpol] at h; exact absurd h (by simp)
        | cons g2 l2 => rw [hfil] at h; exact absurd h (by simp)

/-- Characterization of `_bootstrap_default_access` in terms of the two
resolution outcomes. -/
theorem bootstrap_default_access_eq {s s1 s2 : ServiceState} {pu au : Option String}
    (t : Tenant) (m : TenantMapping) (w : String)
    (hp : get_platform_default_policy_uuid s = .ok (s1, pu))
    (ha : get_admin_default_policy_uuid s1 = .ok (s2, au)) :
    bootstrap_default_access s t m w =
      .ok ({ s2 with log := s2.log ++ access_warnings pu au },
        default_access_tuples t m w pu au) := by
  unfold bootstrap_default_access
  simp only [hp, ha, bind, Except.bind, Except.ok.injEq]
  unfold access_warnings default_access_tuples log_warning
  cases pu <;> cases au <;> simp

@[simp] theorem root_workspace_of_id (st : Settings) (t : Tenant) :
    (root_workspace_of st t).id = root_workspace_id_of t.org_id := rfl

@[simp] theorem default_workspace_of_id (st : Settings) (t : Tenant) :
    (default_workspace_of st t).id = default_workspace_id_of t.org_id := rfl

@[simp] theorem root_workspace_of_tenant_id (st : Settings) (t : Tenant) :
    (root_workspace_of st t).tenant_id = t.id := rfl

@[simp] theorem default_workspace_of_tenant_id (st : Settings) (t : Tenant) :
    (default_workspace_of st t).tenant_id = t.id := rfl

@[simp] theorem root_workspace_of_type (st : Settings) (t : Tenant) :
    (root_workspace_of st t).type = Workspace.Types.ROOT := rfl

@[simp] theorem default_workspace_of_type (st : Settings) (t : Tenant) :
    (default_workspace_of st t).type = Workspace.Types.DEFAULT := rfl

@[simp] theorem default_workspace_of_parent (st : Settings) (t : Tenant) :
    (default_workspace_of st t).parent_id = some (root_workspace_id_of t.org_id) := rfl

/-- Characterization of `_bootstrap_tenant` on a successful run: given a
non-public tenant, fresh workspace identifiers, no existing mapping, and the
two resolution outcomes, the call inserts exactly the two built-in workspaces
and the generated mapping and replicates exactly one `BOOTSTRAP_TENANT`
event. -/
theorem bootstrap_tenant_inner_eq {s s1 s2 : ServiceState} {pu au : Option String}
    (t : Tenant)
    (hpub : ¬ t.tenant_name = "public")
    (hw1 : s.db.workspaces.any (fun w => w.id == root_workspace_id_of t.org_id) = false)
    (hw2 : s.db.workspaces.any (fun w => w.id == default_workspace_id_of t.org_id) = false)
    (hm : s.db.mappings.any (fun m => m.tenant_id == t.id) = false)
    (hp : get_platform_default_policy_uuid s = .ok (s1, pu))
    (ha : get_admin_default_policy_uuid s1 = .ok (s2, au)) :
    bootstrap_tenant_inner s t =
      .ok (
        { s2 with
          db := { s.db with
            workspaces := s.db.workspaces ++
              [root_workspace_of s.settings t, default_workspace_of s.settings t]
            mappings := s.db.mappings ++ [TenantMapping.new t none] }
          log := s2.log ++ access_warnings pu au
          events := s2.events ++
            [{ event_type := .BOOTSTRAP_TENANT
               partition_key := s2.settings.ENV_NAME
               add := hierarchy_tuples s.settings t ++
                 default_access_tuples t (TenantMapping.new t none)
                   (default_workspace_id_of t.org_id) pu au
               remove := [] }] },
        { tenant := t
          mapping := some (TenantMapping.new t none)
          default_workspace := some (default_workspace_of s.settings t)
          root_workspace := some (root_workspace_of s.settings t) }) := by
  have hbw : built_in_workspaces s.settings t =
      (root_workspace_of s.settings t, default_workspace_of s.settings t,
        hierarchy_tuples s.settings t) := rfl
  have hne : (root_workspace_id_of t.org_id == default_workspace_id_of t.org_id) = false :=
    beq_eq_false_iff_ne.mpr (root_ne_default_ws_id t.org_id)
  have h1db : s1.db = s.db := (get_platform_default_policy_uuid_frame hp).1
  have h2set : s2.settings = s.settings := by
    rw [(get_admin_default_policy_uuid_frame ha).2.2.2.1,
      (get_platform_default_policy_uuid_frame hp).2.2.2.1]
  have hp' := get_platform_db_congr
    ({ s.db with
       workspaces := s.db.workspaces ++
         [root_workspace_of s.settings t, default_workspace_of s.settings t]
       mappings := s.db.mappings ++ [TenantMapping.new t none] })
    rfl (Or.inl rfl) hp
  have ha' := get_admin_db_congr
    ({ s.db with
       workspaces := s.db.workspaces ++
         [root_workspace_of s.settings t, default_workspace_of s.settings t]
       mappings := s.db.mappings ++ [TenantMapping.new t none] })
    (by rw [h1db]) (Or.inl (by rw [h1db])) ha
  have hacc := bootstrap_default_access_eq t (TenantMapping.new t none)
    (default_workspace_id_of t.org_id) hp' ha'
  unfold bootstrap_tenant_inner
  rw [hbw]
  dsimp only
  rw [if_neg hpub]
  unfold workspace_force_insert tenant_mapping_create
  simp only [root_workspace_of_id, default_workspace_of_id, List.any_append,
    List.any_cons, List.any_nil, hw1, hw2, hne, hm, Bool.or_false, Bool.false_or,
    Bool.false_eq_true, if_false, bind, Except.bind, pure, Except.pure]
  rw [List.append_assoc]
  simp only [List.cons_append, List.nil_append]
  rw [hacc]
  dsimp only
  rw [replicate, PartitionKey.byEnvironment]

theorem bootstrap_default_access_frame {s S : ServiceState} {rels : List Relationship}
    {t : Tenant} {m : TenantMapping} {w : String}
    (h : bootstrap_default_access s t m w = .ok (S, rels)) :
    S.db = s.db ∧ S.events = s.events ∧ S.settings = s.settings := by
  unfold bootstrap_default_access at h
  cases hp : get_platform_default_policy_uuid s with
  | error e => simp [hp, bind, Except.bind] at h
  | ok r1 =>
    obtain ⟨s1, pu⟩ := r1
    have hf1 := get_platform_default_policy_uuid_frame hp
    cases ha : get_admin_default_policy_uuid s1 with
    | error e => simp [hp, ha, bind, Except.bind] at h
    | ok r2 =>
      obtain ⟨s2, au⟩ := r2
      have hf2 := get_admin_default_policy_uuid_frame ha
      simp only [hp, ha, bind, Except.bind, Except.ok.injEq, Prod.mk.injEq] at h
      obtain ⟨h1, -⟩ := h
      subst h1
      cases pu <;> cases au <;> simp_all [log_warning]

/-! ## Claims -/

/-- C9: Bootstrapping the reserved public/root tenant fails fatally: for every
state and every tenant whose name is the public tenant's, `_bootstrap_tenant`
raises a `ValueError` as its very first step.  The error result carries no
successor state: the atomic transaction aborts, so no workspace, mapping, or
tuple is created. -/
theorem claim_c9_public_tenant_bootstrap_fails (s : ServiceState) (t : Tenant)
    (hname : t.tenant_name = "public") :
    bootstrap_tenant_inner s t = .error "Cannot bootstrap public tenant." := by
  unfold bootstrap_tenant_inner
  rw [hname]
  simp [bind, Except.bind, throw, throwThe, MonadExceptOf.throw]

theorem claim_c9_witness :
    fix_public.tenant_name = "public" ∧
    bootstrap_tenant_inner fix_state fix_public =
      .error "Cannot bootstrap public tenant." :=
  ⟨rfl, claim_c9_public_tenant_bootstrap_fails fix_state fix_public rfl⟩

/-- C4: For every active user update, the tuple edits computed by
`_default_group_tuple_edits` always add the default-group membership edge; an
admin also gets the admin-group edge added and nothing removed; a non-admin
gets the admin-group edge removed; and no case removes the default-group
edge. -/
theorem claim_c4_admin_toggle_symmetry (user : User) (mapping : TenantMapping)
    (uid : String)
    (huid : user.user_id = some uid)
    (hne : mapping.default_group_uuid ≠ mapping.default_admin_group_uuid) :
    ∃ adds removes,
      default_group_tuple_edits user mapping = .ok (adds, removes) ∧
      Group.relationship_to_user_id_for_group mapping.default_group_uuid uid ∈ adds ∧
      (user.admin = true →
        adds = [Group.relationship_to_user_id_for_group mapping.default_group_uuid uid,
          Group.relationship_to_user_id_for_group mapping.default_admin_group_uuid uid] ∧
        removes = []) ∧
      (user.admin = false →
        adds = [Group.relationship_to_user_id_for_group mapping.default_group_uuid uid] ∧
        removes =
          [Group.relationship_to_user_id_for_group mapping.default_admin_group_uuid uid]) ∧
      Group.relationship_to_user_id_for_group mapping.default_group_uuid uid ∉ removes := by
  cases hadm : user.admin
  · refine ⟨[Group.relationship_to_user_id_for_group mapping.default_group_uuid uid],
      [Group.relationship_to_user_id_for_group mapping.default_admin_group_uuid uid],
      ?_, ?_, ?_, ?_, ?_⟩
    · unfold default_group_tuple_edits
      rw [huid, hadm]
      simp
    · simp
    · intro hcontra; exact absurd hcontra (by simp)
    · intro _; exact ⟨rfl, rfl⟩
    · simp [Group.relationship_to_user_id_for_group, create_relationship, hne]
  · refine ⟨[Group.relationship_to_user_id_for_group mapping.default_group_uuid uid,
      Group.relationship_to_user_id_for_group mapping.default_admin_group_uuid uid],
      [], ?_, ?_, ?_, ?_, ?_⟩
    · unfold default_group_tuple_edits
      rw [huid, hadm]
      simp
    · simp
    · intro _; exact ⟨rfl, rfl⟩
    · intro hcontra; exact absurd hcontra (by simp)
    · simp

theorem claim_c4_witness :
    fix_user_plain.user_id = some "u2" ∧
    fix_mapping.default_group_uuid ≠ fix_mapping.default_admin_group_uuid ∧
    (∃ adds removes,
      default_group_tuple_edits fix_user_plain fix_mapping = .ok (adds, removes) ∧
      Group.relationship_to_user_id_for_group fix_mapping.default_group_uuid "u2" ∈ adds ∧
      (fix_user_plain.admin = true →
        adds = [Group.relationship_to_user_id_for_group fix_mapping.default_group_uuid "u2",
          Group.relationship_to_user_id_for_group fix_mapping.default_admin_group_uuid "u2"] ∧
        removes = []) ∧
      (fix_user_plain.admin = false →
        adds = [Group.relationship_to_user_id_for_group fix_mapping.default_group_uuid "u2"] ∧
        removes =
          [Group.relationship_to_user_id_for_group fix_mapping.default_admin_group_uuid "u2"]) ∧
      Group.relationship_to_user_id_for_group fix_mapping.default_group_uuid "u2" ∉ removes) :=
  ⟨rfl, by decide,
    claim_c4_admin_toggle_symmetry fix_user_plain fix_mapping "u2" rfl (by decide)⟩

/-- C7: For every user missing an organization id, or missing an external user
id (on the active path or the disable path), `update_user` rejects with a
fatal error.  The error result carries no successor state: the transaction
rolls back and the transactional replicator emits nothing, so the rejection is
surfaced before any write or replication becomes visible. -/
theorem claim_c7_invalid_input_rejected (s : ServiceState) (user : User)
    (upsert : Bool) (btArg : Option BootstrappedTenant)
    (hbad : user.org_id = none ∨ user.user_id = none) :
    ∃ msg, update_user s user upsert btArg = .error msg := by
  rcases hbad with horg | huid
  · exact ⟨"Cannot update user without org_id. username=" ++ user.username,
      by unfold update_user; rw [horg]; rfl⟩
  · cases horg : user.org_id with
    | none =>
      exact ⟨"Cannot update user without org_id. username=" ++ user.username,
        by unfold update_user; rw [horg]; rfl⟩
    | some org =>
      cases hact : user.is_active with
      | false =>
        refine ⟨"User " ++ user.username ++ " has no user_id.", ?_⟩
        unfold update_user disable_user_in_tenant
        rw [horg, huid]
        simp [hact, bind, Except.bind, throw, throwThe, MonadExceptOf.throw]
      | true =>
        cases hbt : btArg with
        | some b =>
          cases hmap : b.mapping with
          | none =>
            refine ⟨"Expected TenantMapping but got None. org_id: " ++ b.tenant.org_id, ?_⟩
            unfold update_user
            rw [horg]
            simp [hact, hmap, bind, Except.bind, pure, Except.pure,
              throw, throwThe, MonadExceptOf.throw]
          | some m =>
            refine ⟨"Cannot update user without user_id. username=" ++ user.username, ?_⟩
            unfold update_user
            rw [horg]
            simp [hact, hmap, huid, bind, Except.bind, pure, Except.pure,
              throw, throwThe, MonadExceptOf.throw]
        | none =>
          cases hgb : get_or_bootstrap_tenant s org user.account with
          | error e =>
            refine ⟨e, ?_⟩
            unfold update_user
            rw [horg]
            simp [hact, hgb, bind, Except.bind, pure, Except.pure]
          | ok r =>
            obtain ⟨s1, b⟩ := r
            cases hmap : b.mapping with
            | none =>
              refine ⟨"Expected TenantMapping but got None. org_id: " ++ b.tenant.org_id, ?_⟩
              unfold update_user
              rw [horg]
              simp [hact, hgb, hmap, bind, Except.bind, pure, Except.pure,
                throw, throwThe, MonadExceptOf.throw]
            | some m =>
              refine ⟨"Cannot update user without user_id. username=" ++ user.username, ?_⟩
              unfold update_user
              rw [horg]
              simp [hact, hgb, hmap, huid, bind, Except.bind, pure, Except.pure,
                throw, throwThe, MonadExceptOf.throw]

theorem claim_c7_witness :
    (fix_user_no_org.org_id = none ∨ fix_user_no_org.user_id = none) ∧
    ∃ msg, update_user fix_state fix_user_no_org false none = .error msg :=
  ⟨Or.inl rfl,
    claim_c7_invalid_input_rejected fix_state fix_user_no_org false none (Or.inl rfl)⟩

/-- C10: For every active service-account user with an org id and a user id,
`update_user` performs no Principal write and computes no membership tuples,
yet still replicates exactly one `EXTERNAL_USER_UPDATE` event with empty add
and remove lists.  Part one: with a caller-supplied bootstrapped tenant the
whole call changes nothing but the event log.  Part two: the same when the
tenant is looked up and found already mapped. -/
theorem claim_c10_service_account_empty_event :
    (∀ (s : ServiceState) (user : User) (upsert : Bool) (b : BootstrappedTenant)
       (m : TenantMapping) (org uid : String),
      user.is_active = true → user.is_service_account = true →
      user.org_id = some org → user.user_id = some uid →
      b.mapping = some m →
      update_user s user upsert (some b) =
        .ok ({ s with events := s.events ++
          [{ event_type := ReplicationEventType.EXTERNAL_USER_UPDATE
             partition_key := s.settings.ENV_NAME
             add := []
             remove := [] }] }, some b)) ∧
    (∀ (s : ServiceState) (user : User) (upsert : Bool) (t : Tenant)
       (m : TenantMapping) (org uid : String),
      user.is_active = true → user.is_service_account = true →
      user.org_id = some org → user.user_id = some uid →
      user.account = none →
      s.db.tenants.filter (fun u => u.org_id == org) = [t] →
      mappings_for_tenant s.db t = [m] →
      update_user s user upsert none =
        .ok ({ s with events := s.events ++
          [{ event_type := ReplicationEventType.EXTERNAL_USER_UPDATE
             partition_key := s.settings.ENV_NAME
             add := []
             remove := [] }] },
          some { tenant := t, mapping := some m
                 default_workspace := none, root_workspace := none })) := by
  constructor
  · intro s user upsert b m org uid hact hsvc horg huid hmap
    unfold update_user
    rw [horg]
    simp [hact, hmap, huid, hsvc, bind, Except.bind, pure, Except.pure,
      replicate, PartitionKey.byEnvironment]
  · intro s user upsert t m org uid hact hsvc horg huid hacct hten hmapft
    unfold update_user get_or_bootstrap_tenant
    rw [horg, hacct]
    simp only [hact, hten, hmapft, huid, hsvc, bind, Except.bind, pure, Except.pure,
      Bool.not_true, Bool.false_eq_true, if_false]
    simp [replicate, PartitionKey.byEnvironment, hsvc]

theorem claim_c10_witness :
    fix_user_svc.is_active = true ∧ fix_user_svc.is_service_account = true ∧
    fix_user_svc.org_id = some "o1" ∧ fix_user_svc.user_id = some "u3" ∧
    fix_bootstrapped.mapping = some fix_mapping ∧
    update_user fix_state fix_user_svc true (some fix_bootstrapped) =
      .ok ({ fix_state with events := fix_state.events ++
        [{ event_type := ReplicationEventType.EXTERNAL_USER_UPDATE
           partition_key := fix_state.settings.ENV_NAME
           add := []
           remove := [] }] }, some fix_bootstrapped) :=
  ⟨rfl, rfl, rfl, rfl, rfl,
    claim_c10_service_account_empty_event.1 fix_state fix_user_svc true
      fix_bootstrapped fix_mapping "o1" "u3" rfl rfl rfl rfl rfl⟩

/-- C1: Bootstrap is idempotent.  Part one (the fast path): whenever a
`TenantMapping` already exists for the tenant, `bootstrap_tenant` returns the
existing mapping with the state unchanged — zero writes, zero replication.
Part two: bootstrapping a fresh tenant succeeds and a second call returns the
same unchanged state, leaving exactly one mapping, one ROOT workspace, one
DEFAULT workspace for the tenant and exactly one new replication event. -/
theorem claim_c1_bootstrap_idempotent :
    (∀ (s : ServiceState) (t : Tenant) (m : TenantMapping),
      mappings_for_tenant s.db t = [m] →
      bootstrap_tenant s t = .ok (s,
        { tenant := t, mapping := some m
          default_workspace := none, root_workspace := none })) ∧
    (∀ (s s1 s2 : ServiceState) (pu au : Option String) (t : Tenant),
      ¬ t.tenant_name = "public" →
      (∀ m ∈ s.db.mappings, m.tenant_id ≠ t.id) →
      (∀ w ∈ s.db.workspaces, w.tenant_id ≠ t.id) →
      (∀ w ∈ s.db.workspaces, w.id ≠ root_workspace_id_of t.org_id ∧
        w.id ≠ default_workspace_id_of t.org_id) →
      get_platform_default_policy_uuid s = .ok (s1, pu) →
      get_admin_default_policy_uuid s1 = .ok (s2, au) →
      ∃ S B,
        bootstrap_tenant s t = .ok (S, B) ∧
        bootstrap_tenant S t = .ok (S,
          { tenant := t, mapping := some (TenantMapping.new t none)
            default_workspace := none, root_workspace := none }) ∧
        S.db.mappings.filter (fun m => m.tenant_id == t.id) =
          [TenantMapping.new t none] ∧
        (S.db.workspaces.filter (fun w =>
          w.tenant_id == t.id && decide (w.type = Workspace.Types.ROOT))).length = 1 ∧
        (S.db.workspaces.filter (fun w =>
          w.tenant_id == t.id && decide (w.type = Workspace.Types.DEFAULT))).length = 1 ∧
        ∃ ev, S.events = s.events ++ [ev]) := by
  constructor
  · intro s t m hm
    unfold bootstrap_tenant
    rw [hm]
  · intro s s1 s2 pu au t hpub hm hws hfresh hp ha
    have hmnil : mappings_for_tenant s.db t = [] := by
      unfold mappings_for_tenant
      rw [List.filter_eq_nil_iff]
      intro a hamem
      simpa using hm a hamem
    have hany : s.db.mappings.any (fun m => m.tenant_id == t.id) = false := by
      rw [List.any_eq_false]
      intro x hx
      simpa using hm x hx
    have hw1 : s.db.workspaces.any
        (fun w => w.id == root_workspace_id_of t.org_id) = false := by
      rw [List.any_eq_false]
      intro w hw
      simpa using (hfresh w hw).1
    have hw2 : s.db.workspaces.any
        (fun w => w.id == default_workspace_id_of t.org_id) = false := by
      rw [List.any_eq_false]
      intro w hw
      simpa using (hfresh w hw).2
    have hchar := bootstrap_tenant_inner_eq t hpub hw1 hw2 hany hp ha
    have hfirst : bootstrap_tenant s t = bootstrap_tenant_inner s t := by
      unfold bootstrap_tenant
      rw [hmnil]
    have hev2 : s2.events = s.events := by
      rw [(get_admin_default_policy_uuid_frame ha).2.1,
        (get_platform_default_policy_uuid_frame hp).2.1]
    refine ⟨_, _, by rw [hfirst, hchar], ?_, ?_, ?_, ?_, ?_⟩
    · unfold bootstrap_tenant
      have : mappings_for_tenant
          ({ s2 with
            db := { s.db with
              workspaces := s.db.workspaces ++
                [root_workspace_of s.settings t, default_workspace_of s.settings t]
              mappings := s.db.mappings ++ [TenantMapping.new t none] } } :
            ServiceState).db t = [TenantMapping.new t none] := by
        unfold mappings_for_tenant at hmnil ⊢
        dsimp only
        rw [List.filter_append, hmnil]
        simp [TenantMapping.new]
      rw [this]
    · dsimp only
      rw [List.filter_append]
      have h0 : s.db.mappings.filter (fun m => m.tenant_id == t.id) = [] := hmnil
      rw [h0]
      simp [TenantMapping.new]
    · dsimp only
      rw [List.filter_append]
      have h0 : s.db.workspaces.filter (fun w =>
          w.tenant_id == t.id && decide (w.type = Workspace.Types.ROOT)) = [] := by
        rw [List.filter_eq_nil_iff]
        intro w hw
        simp [hws w hw]
      rw [h0]
      simp
    · dsimp only
      rw [List.filter_append]
      have h0 : s.db.workspaces.filter (fun w =>
          w.tenant_id == t.id && decide (w.type = Workspace.Types.DEFAULT)) = [] := by
        rw [List.filter_eq_nil_iff]
        intro w hw
        simp [hws w hw]
      rw [h0]
      simp
    · exact ⟨_, by dsimp only; rw [hev2]⟩

theorem claim_c1_witness :
    (mappings_for_tenant fix_state_disable.db fix_tenant = [fix_mapping] ∧
      bootstrap_tenant fix_state_disable fix_tenant =
        .ok (fix_state_disable,
          { tenant := fix_tenant, mapping := some fix_mapping
            default_workspace := none, root_workspace := none })) ∧
    (∃ S B,
      bootstrap_tenant fix_state fix_tenant = .ok (S, B) ∧
      bootstrap_tenant S fix_tenant = .ok (S,
        { tenant := fix_tenant, mapping := some (TenantMapping.new fix_tenant none)
          default_workspace := none, root_workspace := none }) ∧
      S.db.mappings.filter (fun m => m.tenant_id == fix_tenant.id) =
        [TenantMapping.new fix_tenant none] ∧
      (S.db.workspaces.filter (fun w =>
        w.tenant_id == fix_tenant.id &&
          decide (w.type = Workspace.Types.ROOT))).length = 1 ∧
      (S.db.workspaces.filter (fun w =>
        w.tenant_id == fix_tenant.id &&
          decide (w.type = Workspace.Types.DEFAULT))).length = 1 ∧
      ∃ ev, S.events = fix_state.events ++ [ev]) :=
  ⟨⟨rfl, claim_c1_bootstrap_idempotent.1 fix_state_disable fix_tenant fix_mapping rfl⟩,
    claim_c1_bootstrap_idempotent.2 fix_state fix_resolved1 fix_resolved2
      (some "pp") (some "ap") fix_tenant (by decide) (by decide) (by decide)
      (by decide) rfl rfl⟩

/-- C2: For a freshly bootstrapped tenant whose platform and admin default
policies both resolve, the single `BOOTSTRAP_TENANT` event's add-list is
exactly these 9 tuples: 3 workspace-hierarchy tuples, then the 3 user
role-binding tuples, then the 3 admin role-binding tuples, whose object and
subject ids are the created workspaces' ids and the created mapping's
generated identifiers. -/
theorem claim_c2_fresh_bootstrap_tuple_completeness
    (s s1 s2 : ServiceState) (pu au : String) (t : Tenant)
    (hpub : ¬ t.tenant_name = "public")
    (hcustom : t.platform_default_groups = none)
    (hm : ∀ m ∈ s.db.mappings, m.tenant_id ≠ t.id)
    (hfresh : ∀ w ∈ s.db.workspaces, w.id ≠ root_workspace_id_of t.org_id ∧
      w.id ≠ default_workspace_id_of t.org_id)
    (hp : get_platform_default_policy_uuid s = .ok (s1, some pu))
    (ha : get_admin_default_policy_uuid s1 = .ok (s2, some au)) :
    ∃ S rw dw mp,
      bootstrap_tenant s t = .ok (S,
        { tenant := t, mapping := some mp
          default_workspace := some dw, root_workspace := some rw }) ∧
      rw ∈ S.db.workspaces ∧ dw ∈ S.db.workspaces ∧ mp ∈ S.db.mappings ∧
      rw.type = Workspace.Types.ROOT ∧ dw.type = Workspace.Types.DEFAULT ∧
      dw.parent_id = some rw.id ∧ rw.tenant_id = t.id ∧ dw.tenant_id = t.id ∧
      S.events = s.events ++
        [{ event_type := ReplicationEventType.BOOTSTRAP_TENANT
           partition_key := s.settings.ENV_NAME
           add := [
             create_relationship ("rbac", "workspace") dw.id
               ("rbac", "workspace") rw.id "parent" none,
             create_relationship ("rbac", "workspace") rw.id
               ("rbac", "tenant")
               (s.settings.PRINCIPAL_USER_DOMAIN ++ "/" ++ t.org_id) "parent" none,
             create_relationship ("rbac", "tenant")
               (s.settings.PRINCIPAL_USER_DOMAIN ++ "/" ++ t.org_id)
               ("rbac", "platform") s.settings.ENV_NAME "platform" none,
             create_relationship ("rbac", "workspace") dw.id
               ("rbac", "role_binding") mp.default_role_binding_uuid "binding" none,
             create_relationship ("rbac", "role_binding") mp.default_role_binding_uuid
               ("rbac", "role") pu "role" none,
             create_relationship ("rbac", "role_binding") mp.default_role_binding_uuid
               ("rbac", "group") mp.default_group_uuid "subject" (some "member"),
             create_relationship ("rbac", "workspace") dw.id
               ("rbac", "role_binding") mp.default_admin_role_binding_uuid "binding" none,
             create_relationship ("rbac", "role_binding")
               mp.default_admin_role_binding_uuid ("rbac", "role") au "role" none,
             create_relationship ("rbac", "role_binding")
               mp.default_admin_role_binding_uuid ("rbac", "group")
               mp.default_admin_group_uuid "subject" (some "member")]
           remove := [] }] := by
  have hany : s.db.mappings.any (fun m => m.tenant_id == t.id) = false := by
    rw [List.any_eq_false]; intro x hx; simpa using hm x hx
  have hmnil : mappings_for_tenant s.db t = [] := by
    unfold mappings_for_tenant
    rw [List.filter_eq_nil_iff]
    intro a hamem
    simpa using hm a hamem
  have hw1 : s.db.workspaces.any
      (fun w => w.id == root_workspace_id_of t.org_id) = false := by
    rw [List.any_eq_false]; intro w hw; simpa using (hfresh w hw).1
  have hw2 : s.db.workspaces.any
      (fun w => w.id == default_workspace_id_of t.org_id) = false := by
    rw [List.any_eq_false]; intro w hw; simpa using (hfresh w hw).2
  have hchar := bootstrap_tenant_inner_eq t hpub hw1 hw2 hany hp ha
  have hfirst : bootstrap_tenant s t = bootstrap_tenant_inner s t := by
    unfold bootstrap_tenant
    rw [hmnil]
  have hset2 : s2.settings = s.settings := by
    rw [(get_admin_default_policy_uuid_frame ha).2.2.2.1,
      (get_platform_default_policy_uuid_frame hp).2.2.2.1]
  have hev2 : s2.events = s.events := by
    rw [(get_admin_default_policy_uuid_frame ha).2.1,
      (get_platform_default_policy_uuid_frame hp).2.1]
  have hnocustom : t.has_custom_default_group = false := by
    unfold Tenant.has_custom_default_group
    rw [hcustom]
  refine ⟨_, root_workspace_of s.settings t, default_workspace_of s.settings t,
    TenantMapping.new t none, by rw [hfirst, hchar], ?_, ?_, ?_, rfl, rfl, ?_,
    rfl, rfl, ?_⟩
  · simp
  · simp
  · simp
  · simp
  · dsimp only
    rw [hev2, hset2]
    unfold hierarchy_tuples built_in_workspaces default_access_tuples
      create_default_relation_tuples TenantMapping.new
    rw [hnocustom]
    simp

theorem claim_c2_witness :
    ∃ S rw dw mp,
      bootstrap_tenant fix_state fix_tenant = .ok (S,
        { tenant := fix_tenant, mapping := some mp
          default_workspace := some dw, root_workspace := some rw }) ∧
      rw ∈ S.db.workspaces ∧ dw ∈ S.db.workspaces ∧ mp ∈ S.db.mappings ∧
      rw.type = Workspace.Types.ROOT ∧ dw.type = Workspace.Types.DEFAULT ∧
      dw.parent_id = some rw.id ∧ rw.tenant_id = fix_tenant.id ∧
      dw.tenant_id = fix_tenant.id ∧
      S.events = fix_state.events ++
        [{ event_type := ReplicationEventType.BOOTSTRAP_TENANT
           partition_key := fix_state.settings.ENV_NAME
           add := [
             create_relationship ("rbac", "workspace") dw.id
               ("rbac", "workspace") rw.id "parent" none,
             create_relationship ("rbac", "workspace") rw.id
               ("rbac", "tenant")
               (fix_state.settings.PRINCIPAL_USER_DOMAIN ++ "/" ++ fix_tenant.org_id)
               "parent" none,
             create_relationship ("rbac", "tenant")
               (fix_state.settings.PRINCIPAL_USER_DOMAIN ++ "/" ++ fix_tenant.org_id)
               ("rbac", "platform") fix_state.settings.ENV_NAME "platform" none,
             create_relationship ("rbac", "workspace") dw.id
               ("rbac", "role_binding") mp.default_role_binding_uuid "binding" none,
             create_relationship ("rbac", "role_binding") mp.default_role_binding_uuid
               ("rbac", "role") "pp" "role" none,
             create_relationship ("rbac", "role_binding") mp.default_role_binding_uuid
               ("rbac", "group") mp.default_group_uuid "subject" (some "member"),
             create_relationship ("rbac", "workspace") dw.id
               ("rbac", "role_binding") mp.default_admin_role_binding_uuid "binding" none,
             create_relationship ("rbac", "role_binding")
               mp.default_admin_role_binding_uuid ("rbac", "role") "ap" "role" none,
             create_relationship ("rbac", "role_binding")
               mp.default_admin_role_binding_uuid ("rbac", "group")
               mp.default_admin_group_uuid "subject" (some "member")]
           remove := [] }] :=
  claim_c2_fresh_bootstrap_tuple_completeness fix_state fix_resolved1 fix_resolved2
    "pp" "ap" fix_tenant (by decide) rfl (by decide) (by decide) rfl rfl

/-- C8: A missing default policy is non-fatal.  Part one: when the public
tenant has no `platform_default` system group (and nothing is cached),
resolution returns no identifier, a warning is logged, the 3 user role-binding
tuples are omitted, and bootstrap still completes, replicating the 3 hierarchy
and 3 admin tuples.  Part two: symmetrically for a missing `admin_default`
group, the admin half is omitted and the hierarchy and user tuples are still
replicated. -/
theorem claim_c8_missing_policy_nonfatal :
    (∀ (s sp s2 : ServiceState) (pt : Tenant) (au : String) (t : Tenant),
      ¬ t.tenant_name = "public" →
      (∀ m ∈ s.db.mappings, m.tenant_id ≠ t.id) →
      (∀ w ∈ s.db.workspaces, w.id ≠ root_workspace_id_of t.org_id ∧
        w.id ≠ default_workspace_id_of t.org_id) →
      s.platform_default_policy_uuid = none →
      get_public_tenant s = .ok (sp, pt) →
      sp.db.groups.filter
        (fun g => g.platform_default && g.system && g.tenant_id == pt.id) = [] →
      get_admin_default_policy_uuid sp = .ok (s2, some au) →
      get_platform_default_policy_uuid s = .ok (sp, none) ∧
      ∃ S rw dw mp,
        bootstrap_tenant s t = .ok (S,
          { tenant := t, mapping := some mp
            default_workspace := some dw, root_workspace := some rw }) ∧
        platform_warning ∈ S.log ∧
        S.events = s.events ++
          [{ event_type := ReplicationEventType.BOOTSTRAP_TENANT
             partition_key := s.settings.ENV_NAME
             add := [
               create_relationship ("rbac", "workspace") dw.id
                 ("rbac", "workspace") rw.id "parent" none,
               create_relationship ("rbac", "workspace") rw.id
                 ("rbac", "tenant")
                 (s.settings.PRINCIPAL_USER_DOMAIN ++ "/" ++ t.org_id) "parent" none,
               create_relationship ("rbac", "tenant")
                 (s.settings.PRINCIPAL_USER_DOMAIN ++ "/" ++ t.org_id)
                 ("rbac", "platform") s.settings.ENV_NAME "platform" none,
               create_relationship ("rbac", "workspace") dw.id
                 ("rbac", "role_binding") mp.default_admin_role_binding_uuid
                 "binding" none,
               create_relationship ("rbac", "role_binding")
                 mp.default_admin_role_binding_uuid ("rbac", "role") au "role" none,
               create_relationship ("rbac", "role_binding")
                 mp.default_admin_role_binding_uuid ("rbac", "group")
                 mp.default_admin_group_uuid "subject" (some "member")]
             remove := [] }]) ∧
    (∀ (s s1 sp : ServiceState) (pt : Tenant) (pu : String) (t : Tenant),
      ¬ t.tenant_name = "public" →
      t.platform_default_groups = none →
      (∀ m ∈ s.db.mappings, m.tenant_id ≠ t.id) →
      (∀ w ∈ s.db.workspaces, w.id ≠ root_workspace_id_of t.org_id ∧
        w.id ≠ default_workspace_id_of t.org_id) →
      get_platform_default_policy_uuid s = .ok (s1, some pu) →
      s1.admin_default_policy_uuid = none →
      get_public_tenant s1 = .ok (sp, pt) →
      sp.db.groups.filter
        (fun g => g.admin_default && g.system && g.tenant_id == pt.id) = [] →
      get_admin_default_policy_uuid s1 = .ok (sp, none) ∧
      ∃ S rw dw mp,
        bootstrap_tenant s t = .ok (S,
          { tenant := t, mapping := some mp
            default_workspace := some dw, root_workspace := some rw }) ∧
        admin_warning ∈ S.log ∧
        S.events = s.events ++
          [{ event_type := ReplicationEventType.BOOTSTRAP_TENANT
             partition_key := s.settings.ENV_NAME
             add := [
               create_relationship ("rbac", "workspace") dw.id
                 ("rbac", "workspace") rw.id "parent" none,
               create_relationship ("rbac", "workspace") rw.id
                 ("rbac", "tenant")
                 (s.settings.PRINCIPAL_USER_DOMAIN ++ "/" ++ t.org_id) "parent" none,
               create_relationship ("rbac", "tenant")
                 (s.settings.PRINCIPAL_USER_DOMAIN ++ "/" ++ t.org_id)
                 ("rbac", "platform") s.settings.ENV_NAME "platform" none,
               create_relationship ("rbac", "workspace") dw.id
                 ("rbac", "role_binding") mp.default_role_binding_uuid "binding" none,
               create_relationship ("rbac", "role_binding")
                 mp.default_role_binding_uuid ("rbac", "role") pu "role" none,
               create_relationship ("rbac", "role_binding")
                 mp.default_role_binding_uuid ("rbac", "group")
                 mp.default_group_uuid "subject" (some "member")]
             remove := [] }]) := by
  constructor
  · intro s sp s2 pt au t hpub hm hfresh hcache hpt hgrp ha
    have hp : get_platform_default_policy_uuid s = .ok (sp, none) := by
      unfold get_platform_default_policy_uuid
      rw [hcache]
      simp only [hpt, bind, Except.bind]
      rw [hgrp]
    refine ⟨hp, ?_⟩
    have hany : s.db.mappings.any (fun m => m.tenant_id == t.id) = false := by
      rw [List.any_eq_false]; intro x hx; simpa using hm x hx
    have hmnil : mappings_for_tenant s.db t = [] := by
      unfold mappings_for_tenant
      rw [List.filter_eq_nil_iff]
      intro a hamem
      simpa using hm a hamem
    have hw1 : s.db.workspaces.any
        (fun w => w.id == root_workspace_id_of t.org_id) = false := by
      rw [List.any_eq_false]; intro w hw; simpa using (hfresh w hw).1
    have hw2 : s.db.workspaces.any
        (fun w => w.id == default_workspace_id_of t.org_id) = false := by
      rw [List.any_eq_false]; intro w hw; simpa using (hfresh w hw).2
    have hchar := bootstrap_tenant_inner_eq t hpub hw1 hw2 hany hp ha
    have hfirst : bootstrap_tenant s t = bootstrap_tenant_inner s t := by
      unfold bootstrap_tenant
      rw [hmnil]
    have hset2 : s2.settings = s.settings := by
      rw [(get_admin_default_policy_uuid_frame ha).2.2.2.1,
        (get_public_tenant_frame hpt).2.2.2.1]
    have hev2 : s2.events = s.events := by
      rw [(get_admin_default_policy_uuid_frame ha).2.1,
        (get_public_tenant_frame hpt).2.1]
    refine ⟨_, root_workspace_of s.settings t, default_workspace_of s.settings t,
      TenantMapping.new t none, by rw [hfirst, hchar], ?_, ?_⟩
    · dsimp only
      unfold access_warnings
      simp
    · dsimp only
      rw [hev2, hset2]
      unfold hierarchy_tuples built_in_workspaces default_access_tuples
        create_default_relation_tuples TenantMapping.new
      simp
  · intro s s1 sp pt pu t hpub hcustom hm hfresh hp hcache hpt hgrp
    have ha : get_admin_default_policy_uuid s1 = .ok (sp, none) := by
      unfold get_admin_default_policy_uuid
      rw [hcache]
      simp only [hpt, bind, Except.bind]
      rw [hgrp]
    refine ⟨ha, ?_⟩
    have hany : s.db.mappings.any (fun m => m.tenant_id == t.id) = false := by
      rw [List.any_eq_false]; intro x hx; simpa using hm x hx
    have hmnil : mappings_for_tenant s.db t = [] := by
      unfold mappings_for_tenant
      rw [List.filter_eq_nil_iff]
      intro a hamem
      simpa using hm a hamem
    have hw1 : s.db.workspaces.any
        (fun w => w.id == root_workspace_id_of t.org_id) = false := by
      rw [List.any_eq_false]; intro w hw; simpa using (hfresh w hw).1
    have hw2 : s.db.workspaces.any
        (fun w => w.id == default_workspace_id_of t.org_id) = false := by
      rw [List.any_eq_false]; intro w hw; simpa using (hfresh w hw).2
    have hchar := bootstrap_tenant_inner_eq t hpub hw1 hw2 hany hp ha
    have hfirst : bootstrap_tenant s t = bootstrap_tenant_inner s t := by
      unfold bootstrap_tenant
      rw [hmnil]
    have hset2 : sp.settings = s.settings := by
      rw [(get_public_tenant_frame hpt).2.2.2.1,
        (get_platform_default_policy_uuid_frame hp).2.2.2.1]
    have hev2 : sp.events = s.events := by
      rw [(get_public_tenant_frame hpt).2.1,
        (get_platform_default_policy_uuid_frame hp).2.1]
    have hnocustom : t.has_custom_default_group = false := by
      unfold Tenant.has_custom_default_group
      rw [hcustom]
    refine ⟨_, root_workspace_of s.settings t, default_workspace_of s.settings t,
      TenantMapping.new t none, by rw [hfirst, hchar], ?_, ?_⟩
    · dsimp only
      unfold access_warnings
      simp
    · dsimp only
      rw [hev2, hset2]
      unfold hierarchy_tuples built_in_workspaces default_access_tuples
        create_default_relation_tuples TenantMapping.new
      rw [hnocustom]
      simp

theorem claim_c8_witness :
    (get_platform_default_policy_uuid fix_state_no_platform =
        .ok (fix_noplat_pub, none) ∧
      ∃ S rw dw mp,
        bootstrap_tenant fix_state_no_platform fix_tenant = .ok (S,
          { tenant := fix_tenant, mapping := some mp
            default_workspace := some dw, root_workspace := some rw }) ∧
        platform_warning ∈ S.log ∧
        S.events = fix_state_no_platform.events ++
          [{ event_type := ReplicationEventType.BOOTSTRAP_TENANT
             partition_key := fix_state_no_platform.settings.ENV_NAME
             add := [
               create_relationship ("rbac", "workspace") dw.id
                 ("rbac", "workspace") rw.id "parent" none,
               create_relationship ("rbac", "workspace") rw.id
                 ("rbac", "tenant")
                 (fix_state_no_platform.settings.PRINCIPAL_USER_DOMAIN ++ "/" ++
                   fix_tenant.org_id) "parent" none,
               create_relationship ("rbac", "tenant")
                 (fix_state_no_platform.settings.PRINCIPAL_USER_DOMAIN ++ "/" ++
                   fix_tenant.org_id)
                 ("rbac", "platform") fix_state_no_platform.settings.ENV_NAME
                 "platform" none,
               create_relationship ("rbac", "workspace") dw.id
                 ("rbac", "role_binding") mp.default_admin_role_binding_uuid
                 "binding" none,
               create_relationship ("rbac", "role_binding")
                 mp.default_admin_role_binding_uuid ("rbac", "role") "ap" "role" none,
               create_relationship ("rbac", "role_binding")
                 mp.default_admin_role_binding_uuid ("rbac", "group")
                 mp.default_admin_group_uuid "subject" (some "member")]
             remove := [] }]) ∧
    (get_admin_default_policy_uuid fix_noadm_res1 = .ok (fix_noadm_res1, none) ∧
      ∃ S rw dw mp,
        bootstrap_tenant fix_state_no_admin fix_tenant = .ok (S,
          { tenant := fix_tenant, mapping := some mp
            default_workspace := some dw, root_workspace := some rw }) ∧
        admin_warning ∈ S.log ∧
        S.events = fix_state_no_admin.events ++
          [{ event_type := ReplicationEventType.BOOTSTRAP_TENANT
             partition_key := fix_state_no_admin.settings.ENV_NAME
             add := [
               create_relationship ("rbac", "workspace") dw.id
                 ("rbac", "workspace") rw.id "parent" none,
               create_relationship ("rbac", "workspace") rw.id
                 ("rbac", "tenant")
                 (fix_state_no_admin.settings.PRINCIPAL_USER_DOMAIN ++ "/" ++
                   fix_tenant.org_id) "parent" none,
               create_relationship ("rbac", "tenant")
                 (fix_state_no_admin.settings.PRINCIPAL_USER_DOMAIN ++ "/" ++
                   fix_tenant.org_id)
                 ("rbac", "platform") fix_state_no_admin.settings.ENV_NAME
                 "platform" none,
               create_relationship ("rbac", "workspace") dw.id
                 ("rbac", "role_binding") mp.default_role_binding_uuid "binding" none,
               create_relationship ("rbac", "role_binding")
                 mp.default_role_binding_uuid ("rbac", "role") "pp" "role" none,
               create_relationship ("rbac", "role_binding")
                 mp.default_role_binding_uuid ("rbac", "group")
                 mp.default_group_uuid "subject" (some "member")]
             remove := [] }]) :=
  ⟨claim_c8_missing_policy_nonfatal.1 fix_state_no_platform fix_noplat_pub
      fix_noplat_adm fix_public "ap" fix_tenant (by decide) (by decide) (by decide)
      rfl rfl rfl rfl,
    claim_c8_missing_policy_nonfatal.2 fix_state_no_admin fix_noadm_res1
      fix_noadm_res1 fix_public "pp" fix_tenant (by decide) rfl (by decide)
      (by decide) rfl rfl rfl rfl⟩

/-- C6: Disabling a user who belongs to the default group (via the tenant
mapping) and one other custom group yields exactly two group-membership remove
tuples — the mapping-derived default-group edge and the custom group's edge —
deletes the Principal, and emits one `EXTERNAL_USER_UPDATE` event carrying
only removals (part one).  Part two: whenever a mapping exists, the
mapping-derived default-group remove tuple is in the emitted event no matter
how the Principal lookup turns out. -/
theorem claim_c6_disable_removes_all_edges :
    (∀ (s : ServiceState) (user : User) (uid org : String)
       (m : TenantMapping) (p : Principal) (g : Group),
      user.is_active = false →
      user.user_id = some uid →
      user.org_id = some org →
      mappings_for_org s.db user.org_id = [m] →
      principals_for s.db user.org_id user.username = [p] →
      p.group = [g] →
      disable_user_in_tenant s user = .ok
        { s with
          db := delete_principal s.db p
          events := s.events ++
            [{ event_type := ReplicationEventType.EXTERNAL_USER_UPDATE
               partition_key := s.settings.ENV_NAME
               add := []
               remove :=
                 [Group.relationship_to_user_id_for_group m.default_group_uuid uid,
                  Group.relationship_to_principal g p] }] } ∧
      principals_for (delete_principal s.db p) user.org_id user.username = []) ∧
    (∀ (s S : ServiceState) (user : User) (uid : String) (m : TenantMapping),
      user.user_id = some uid →
      mappings_for_org s.db user.org_id = [m] →
      disable_user_in_tenant s user = .ok S →
      ∃ ev, S.events = s.events ++ [ev] ∧ ev.add = [] ∧
        Group.relationship_to_user_id_for_group m.default_group_uuid uid ∈
          ev.remove) := by
  constructor
  · intro s user uid org m p g hinact huid horg hmap hprin hg
    constructor
    · unfold disable_user_in_tenant
      rw [huid, hmap, hprin]
      simp [bind, Except.bind, replicate, PartitionKey.byEnvironment, hg]
    · have hp_mem : p ∈ principals_for s.db user.org_id user.username := by
        rw [hprin]; exact List.mem_cons_self p []
      have hp_pred := List.mem_filter.mp hp_mem
      unfold principals_for at hp_pred ⊢
      unfold delete_principal
      dsimp only
      rw [List.filter_eq_nil_iff]
      intro a ha
      have ha' := List.mem_filter.mp ha
      intro hpred
      rw [horg] at hpred hp_pred
      have h1 : a.username = user.username ∧ a.tenant_org_id = org := by
        have := hpred
        simp only [Bool.and_eq_true, beq_iff_eq] at this
        exact ⟨this.1, this.2⟩
      have h2 : p.username = user.username ∧ p.tenant_org_id = org := by
        have := hp_pred.2
        simp only [Bool.and_eq_true, beq_iff_eq] at this
        exact ⟨this.1, this.2⟩
      have := ha'.2
      simp only [Bool.not_eq_true', Bool.and_eq_false_iff, beq_eq_false_iff_ne] at this
      rcases this with hne | hne
      · exact hne (h1.2.trans h2.2.symm)
      · exact hne (h1.1.trans h2.1.symm)
  · intro s S user uid m huid hmap hok
    unfold disable_user_in_tenant at hok
    rw [huid, hmap] at hok
    cases hpr : principals_for s.db user.org_id user.username with
    | nil =>
      rw [hpr] at hok
      simp only [bind, Except.bind, replicate, Except.ok.injEq] at hok
      subst hok
      exact ⟨_, rfl, rfl, by simp⟩
    | cons p rest =>
      cases rest with
      | nil =>
        rw [hpr] at hok
        simp only [bind, Except.bind, replicate, Except.ok.injEq] at hok
        subst hok
        exact ⟨_, rfl, rfl, by simp⟩
      | cons p2 rest2 =>
        rw [hpr] at hok
        simp [bind, Except.bind] at hok

theorem claim_c6_witness :
    disable_user_in_tenant fix_state_disable fix_user_disabled = .ok
      { fix_state_disable with
        db := delete_principal fix_state_disable.db fix_principal_disabled
        events := fix_state_disable.events ++
          [{ event_type := ReplicationEventType.EXTERNAL_USER_UPDATE
             partition_key := fix_state_disable.settings.ENV_NAME
             add := []
             remove :=
               [Group.relationship_to_user_id_for_group
                  fix_mapping.default_group_uuid "u9",
                Group.relationship_to_principal fix_other_group
                  fix_principal_disabled] }] } ∧
    principals_for (delete_principal fix_state_disable.db fix_principal_disabled)
      fix_user_disabled.org_id fix_user_disabled.username = [] :=
  claim_c6_disable_removes_all_edges.1 fix_state_disable fix_user_disabled
    "u9" "o1" fix_mapping fix_principal_disabled fix_other_group
    rfl rfl rfl (by decide) (by decide) rfl

/-- Characterization of `_bootstrap_tenants` on a single tenant: it inserts
the two built-in workspaces and the mapping (honouring a custom
platform-default group), computes default access, and emits one
`BULK_BOOTSTRAP_TENANT` event with the hierarchy tuples followed by the
default-access tuples. -/
theorem bootstrap_tenants_bulk_singleton {s s1 s2 : ServiceState}
    {pu au : Option String} (t : Tenant)
    (hw1 : s.db.workspaces.any (fun w => w.id == root_workspace_id_of t.org_id) = false)
    (hw2 : s.db.workspaces.any (fun w => w.id == default_workspace_id_of t.org_id) = false)
    (hm : s.db.mappings.any (fun m => m.tenant_id == t.id) = false)
    (hp : get_platform_default_policy_uuid s = .ok (s1, pu))
    (ha : get_admin_default_policy_uuid s1 = .ok (s2, au)) :
    bootstrap_tenants_bulk s [t] =
      .ok (
        { s2 with
          db := { s.db with
            workspaces := s.db.workspaces ++
              [root_workspace_of s.settings t, default_workspace_of s.settings t]
            mappings := s.db.mappings ++
              [TenantMapping.new t (custom_default_group_uuid t)] }
          log := s2.log ++ access_warnings pu au
          events := s2.events ++
            [{ event_type := .BULK_BOOTSTRAP_TENANT
               partition_key := s2.settings.ENV_NAME
               add := hierarchy_tuples s.settings t ++
                 (default_access_tuples t
                   (TenantMapping.new t (custom_default_group_uuid t))
                   (default_workspace_id_of t.org_id) pu au ++ [])
               remove := [] }] },
        [{ tenant := t
           mapping := some (TenantMapping.new t (custom_default_group_uuid t))
           default_workspace := none
           root_workspace := none }]) := by
  have hbw : built_in_workspaces s.settings t =
      (root_workspace_of s.settings t, default_workspace_of s.settings t,
        hierarchy_tuples s.settings t) := rfl
  have hne : (root_workspace_id_of t.org_id == default_workspace_id_of t.org_id) = false :=
    beq_eq_false_iff_ne.mpr (root_ne_default_ws_id t.org_id)
  have h1db : s1.db = s.db := (get_platform_default_policy_uuid_frame hp).1
  have hp' := get_platform_db_congr
    ({ s.db with
       workspaces := s.db.workspaces ++
         [root_workspace_of s.settings t, default_workspace_of s.settings t]
       mappings := s.db.mappings ++
         [TenantMapping.new t (custom_default_group_uuid t)] })
    rfl (Or.inl rfl) hp
  have ha' := get_admin_db_congr
    ({ s.db with
       workspaces := s.db.workspaces ++
         [root_workspace_of s.settings t, default_workspace_of s.settings t]
       mappings := s.db.mappings ++
         [TenantMapping.new t (custom_default_group_uuid t)] })
    (by rw [h1db]) (Or.inl (by rw [h1db])) ha
  have hacc := bootstrap_default_access_eq t
    (TenantMapping.new t (custom_default_group_uuid t))
    (default_workspace_id_of t.org_id) hp' ha'
  have hfind : [TenantMapping.new t (custom_default_group_uuid t)].find?
      (fun m => m.tenant_id == t.id) =
      some (TenantMapping.new t (custom_default_group_uuid t)) := by
    simp [TenantMapping.new]
  unfold bootstrap_tenants_bulk
  simp only [List.map_cons, List.map_nil]
  rw [hbw]
  dsimp only
  simp only [List.flatten_cons, List.flatten_nil, List.append_nil,
    List.zip_cons_cons, List.zip_nil_right]
  simp only [workspaces_bulk_create, tenant_mappings_bulk_create,
    workspace_force_insert, tenant_mapping_insert, root_workspace_of_id,
    default_workspace_of_id, List.any_append, List.any_cons, List.any_nil,
    hw1, hw2, hne, hm, Bool.or_false, Bool.false_or, Bool.or_self,
    Bool.false_eq_true, if_false, bind, Except.bind, pure, Except.pure,
    TenantMapping.new, beq_self_eq_true]
  rw [List.append_assoc]
  simp only [List.cons_append, List.nil_append]
  simp only [bulk_default_access_loop, TenantMapping.new] at hfind ⊢
  rw [hfind]
  simp only [bind, Except.bind]
  rw [show (TenantMapping.new t (custom_default_group_uuid t)) =
    { tenant_id := t.id
      default_group_uuid :=
        (custom_default_group_uuid t).getD (default_group_uuid_of t.org_id)
      default_admin_group_uuid := default_admin_group_uuid_of t.org_id
      default_role_binding_uuid := default_role_binding_uuid_of t.org_id
      default_admin_role_binding_uuid :=
        default_admin_role_binding_uuid_of t.org_id } from rfl] at hacc
  rw [hacc]
  dsimp only
  rw [replicate, PartitionKey.byEnvironment]
  simp only [List.append_nil]

@[simp] theorem with_platform_default_prefetch_org_id (db : DB) (t : Tenant) :
    (with_platform_default_prefetch db t).org_id = t.org_id := rfl

@[simp] theorem with_platform_default_prefetch_id (db : DB) (t : Tenant) :
    (with_platform_default_prefetch db t).id = t.id := rfl

/-- `_get_or_bootstrap_tenants` for one org id whose tenant row exists but has
no mapping: the whole call reduces to bulk-bootstrapping the one prefetched
tenant. -/
theorem get_or_bootstrap_tenants_single_existing
    {s S : ServiceState} {org : String} {t : Tenant}
    {bts : List BootstrappedTenant}
    (hten : s.db.tenants.filter (fun u => [org].contains u.org_id) = [t])
    (horg : t.org_id = org)
    (hmnil : s.db.mappings.filter (fun m => m.tenant_id == t.id) = [])
    (hbulk : bootstrap_tenants_bulk s [with_platform_default_prefetch s.db t] =
      .ok (S, bts)) :
    get_or_bootstrap_tenants s [org] = .ok (S, bts) := by
  have hmnil' : mappings_for_tenant s.db (with_platform_default_prefetch s.db t) = [] := by
    unfold mappings_for_tenant with_platform_default_prefetch
    exact hmnil
  have hany : ([with_platform_default_prefetch s.db t].any
      (fun u => u.org_id == org)) = true := by
    simp [horg]
  unfold get_or_bootstrap_tenants
  rw [hten]
  simp only [List.map_cons, List.map_nil, List.filterMap_cons, List.filterMap_nil,
    hmnil', List.head?_nil, Option.map_none, List.filter_cons, List.filter_nil,
    List.isEmpty_nil, hany, Bool.not_true, Bool.false_eq_true, if_false, if_true,
    List.enum_nil, List.length_nil, List.append_nil, Nat.add_zero,
    List.nil_append]
  show Except.bind (bootstrap_tenants_bulk s
    [with_platform_default_prefetch s.db t]) _ = _
  rw [hbulk]
  simp [Except.bind]

/-- C3: For a tenant that already has a `platform_default` group before
bootstrap runs (detected by the bulk path's prefetch), the emitted bulk
bootstrap event omits the 3 user role-binding tuples but still carries the 3
workspace-hierarchy tuples and the 3 admin role-binding tuples — 6 in total —
and the created mapping adopts the custom group's UUID as its default group
id. -/
theorem claim_c3_custom_default_group_skip
    (s s1 s2 : ServiceState) (pu au : String) (t : Tenant) (g : Group)
    (gs : List Group) (org : String)
    (horg : t.org_id = org)
    (hten : s.db.tenants.filter (fun u => [org].contains u.org_id) = [t])
    (hcust : s.db.groups.filter
      (fun gg => gg.tenant_id == t.id && gg.platform_default) = g :: gs)
    (hm : ∀ m ∈ s.db.mappings, m.tenant_id ≠ t.id)
    (hfresh : ∀ w ∈ s.db.workspaces, w.id ≠ root_workspace_id_of t.org_id ∧
      w.id ≠ default_workspace_id_of t.org_id)
    (hp : get_platform_default_policy_uuid s = .ok (s1, some pu))
    (ha : get_admin_default_policy_uuid s1 = .ok (s2, some au)) :
    ∃ S mp rw dw,
      get_or_bootstrap_tenants s [org] = .ok (S,
        [{ tenant := with_platform_default_prefetch s.db t
           mapping := some mp
           default_workspace := none
           root_workspace := none }]) ∧
      mp.default_group_uuid = g.uuid ∧
      rw ∈ S.db.workspaces ∧ dw ∈ S.db.workspaces ∧ mp ∈ S.db.mappings ∧
      rw.type = Workspace.Types.ROOT ∧ dw.type = Workspace.Types.DEFAULT ∧
      dw.parent_id = some rw.id ∧
      S.events = s.events ++
        [{ event_type := ReplicationEventType.BULK_BOOTSTRAP_TENANT
           partition_key := s.settings.ENV_NAME
           add := [
             create_relationship ("rbac", "workspace") dw.id
               ("rbac", "workspace") rw.id "parent" none,
             create_relationship ("rbac", "workspace") rw.id
               ("rbac", "tenant")
               (s.settings.PRINCIPAL_USER_DOMAIN ++ "/" ++ t.org_id) "parent" none,
             create_relationship ("rbac", "tenant")
               (s.settings.PRINCIPAL_USER_DOMAIN ++ "/" ++ t.org_id)
               ("rbac", "platform") s.settings.ENV_NAME "platform" none,
             create_relationship ("rbac", "workspace") dw.id
               ("rbac", "role_binding") mp.default_admin_role_binding_uuid
               "binding" none,
             create_relationship ("rbac", "role_binding")
               mp.default_admin_role_binding_uuid ("rbac", "role") au "role" none,
             create_relationship ("rbac", "role_binding")
               mp.default_admin_role_binding_uuid ("rbac", "group")
               mp.default_admin_group_uuid "subject" (some "member")]
           remove := [] }] := by
  have hw1 : s.db.workspaces.any (fun w =>
      w.id == root_workspace_id_of (with_platform_default_prefetch s.db t).org_id) =
      false := by
    rw [List.any_eq_false]
    intro w hw
    simpa using (hfresh w hw).1
  have hw2 : s.db.workspaces.any (fun w =>
      w.id == default_workspace_id_of (with_platform_default_prefetch s.db t).org_id) =
      false := by
    rw [List.any_eq_false]
    intro w hw
    simpa using (hfresh w hw).2
  have hany : s.db.mappings.any (fun m =>
      m.tenant_id == (with_platform_default_prefetch s.db t).id) = false := by
    rw [List.any_eq_false]
    intro x hx
    simpa using hm x hx
  have hmnil : s.db.mappings.filter (fun m => m.tenant_id == t.id) = [] := by
    rw [List.filter_eq_nil_iff]
    intro a hamem
    simpa using hm a hamem
  have hbulk := bootstrap_tenants_bulk_singleton
    (with_platform_default_prefetch s.db t) hw1 hw2 hany hp ha
  have hmain := get_or_bootstrap_tenants_single_existing hten horg hmnil hbulk
  have hcu : custom_default_group_uuid (with_platform_default_prefetch s.db t) =
      some g.uuid := by
    unfold custom_default_group_uuid with_platform_default_prefetch
    dsimp only
    rw [hcust]
  have hcustT : (with_platform_default_prefetch s.db t).has_custom_default_group =
      true := by
    unfold Tenant.has_custom_default_group with_platform_default_prefetch
    dsimp only
    rw [hcust]
  have hset2 : s2.settings = s.settings := by
    rw [(get_admin_default_policy_uuid_frame ha).2.2.2.1,
      (get_platform_default_policy_uuid_frame hp).2.2.2.1]
  have hev2 : s2.events = s.events := by
    rw [(get_admin_default_policy_uuid_frame ha).2.1,
      (get_platform_default_policy_uuid_frame hp).2.1]
  refine ⟨_,
    TenantMapping.new (with_platform_default_prefetch s.db t)
      (custom_default_group_uuid (with_platform_default_prefetch s.db t)),
    root_workspace_of s.settings (with_platform_default_prefetch s.db t),
    default_workspace_of s.settings (with_platform_default_prefetch s.db t),
    hmain, ?_, ?_, ?_, ?_, rfl, rfl, ?_, ?_⟩
  · rw [show (TenantMapping.new (with_platform_default_prefetch s.db t)
        (custom_default_group_uuid
          (with_platform_default_prefetch s.db t))).default_group_uuid =
      (custom_default_group_uuid (with_platform_default_prefetch s.db t)).getD
        (default_group_uuid_of (with_platform_default_prefetch s.db t).org_id)
      from rfl]
    rw [hcu]
    rfl
  · simp
  · simp
  · simp
  · simp
  · dsimp only
    rw [hev2, hset2]
    unfold hierarchy_tuples built_in_workspaces default_access_tuples
      create_default_relation_tuples TenantMapping.new
    rw [hcustT]
    simp [horg]

theorem claim_c3_witness :
    ∃ S mp rw dw,
      get_or_bootstrap_tenants fix_state_custom ["o1"] = .ok (S,
        [{ tenant := with_platform_default_prefetch fix_state_custom.db fix_tenant
           mapping := some mp
           default_workspace := none
           root_workspace := none }]) ∧
      mp.default_group_uuid = fix_custom_group.uuid ∧
      rw ∈ S.db.workspaces ∧ dw ∈ S.db.workspaces ∧ mp ∈ S.db.mappings ∧
      rw.type = Workspace.Types.ROOT ∧ dw.type = Workspace.Types.DEFAULT ∧
      dw.parent_id = some rw.id ∧
      S.events = fix_state_custom.events ++
        [{ event_type := ReplicationEventType.BULK_BOOTSTRAP_TENANT
           partition_key := fix_state_custom.settings.ENV_NAME
           add := [
             create_relationship ("rbac", "workspace") dw.id
               ("rbac", "workspace") rw.id "parent" none,
             create_relationship ("rbac", "workspace") rw.id
               ("rbac", "tenant")
               (fix_state_custom.settings.PRINCIPAL_USER_DOMAIN ++ "/" ++
                 fix_tenant.org_id) "parent" none,
             create_relationship ("rbac", "tenant")
               (fix_state_custom.settings.PRINCIPAL_USER_DOMAIN ++ "/" ++
                 fix_tenant.org_id)
               ("rbac", "platform") fix_state_custom.settings.ENV_NAME
               "platform" none,
             create_relationship ("rbac", "workspace") dw.id
               ("rbac", "role_binding") mp.default_admin_role_binding_uuid
               "binding" none,
             create_relationship ("rbac", "role_binding")
               mp.default_admin_role_binding_uuid ("rbac", "role") "ap" "role" none,
             create_relationship ("rbac", "role_binding")
               mp.default_admin_role_binding_uuid ("rbac", "group")
               mp.default_admin_group_uuid "subject" (some "member")]
           remove := [] }] :=
  claim_c3_custom_default_group_skip fix_state_custom fix_custom_res1
    fix_custom_res2 "pp" "ap" fix_tenant fix_custom_group [] "o1"
    rfl (by decide) (by decide) (by decide) (by decide) rfl rfl

/-! ## Lemmas for the bulk-vs-single comparison (C5) -/

theorem get_platform_cached {s : ServiceState} {pu : String}
    (h : s.platform_default_policy_uuid = some pu) :
    get_platform_default_policy_uuid s = .ok (s, some pu) := by
  unfold get_platform_default_policy_uuid
  rw [h]

theorem get_admin_cached {s : ServiceState} {au : String}
    (h : s.admin_default_policy_uuid = some au) :
    get_admin_default_policy_uuid s = .ok (s, some au) := by
  unfold get_admin_default_policy_uuid
  rw [h]

/-- With both policy UUIDs cached, `_bootstrap_default_access` is a pure
computation: no state change, no warnings. -/
theorem bootstrap_default_access_cached {s : ServiceState} {pu au : String}
    (t : Tenant) (m : TenantMapping) (w : String)
    (hcp : s.platform_default_policy_uuid = some pu)
    (hca : s.admin_default_policy_uuid = some au) :
    bootstrap_default_access s t m w =
      .ok (s, default_access_tuples t m w (some pu) (some au)) := by
  have h := bootstrap_default_access_eq t m w (get_platform_cached hcp)
    (get_admin_cached hca)
  simpa [access_warnings] using h

/-- `_default_group_tuple_edits` computes exactly `per_user_edits` whenever
the mapping's group UUIDs are the generated ones for the user's org. -/
theorem default_group_tuple_edits_eq_per_user {u : User} {m : TenantMapping}
    {org uid : String}
    (horg : u.org_id = some org) (huid : u.user_id = some uid)
    (h1 : m.default_group_uuid = default_group_uuid_of org)
    (h2 : m.default_admin_group_uuid = default_admin_group_uuid_of org) :
    default_group_tuple_edits u m = .ok (per_user_edits u) := by
  unfold default_group_tuple_edits per_user_edits
  rw [horg, huid, h1, h2]
  cases hadm : u.admin <;> simp

/-- In a list of tenants with pairwise-distinct org ids, filtering on one org
yields nothing or a single row. -/
theorem filter_org_unique (l : List Tenant)
    (hpw : l.Pairwise (fun a b => a.org_id ≠ b.org_id)) (org : String) :
    l.filter (fun u => u.org_id == org) = [] ∨
      ∃ t, l.filter (fun u => u.org_id == org) = [t] ∧ t ∈ l ∧ t.org_id = org := by
  induction l with
  | nil => exact Or.inl rfl
  | cons a l ih =>
    rcases List.pairwise_cons.mp hpw with ⟨ha, hl⟩
    by_cases horg : a.org_id = org
    · right
      refine ⟨a, ?_, List.mem_cons_self a l, horg⟩
      rw [List.filter_cons_of_pos (by simpa using horg)]
      have : l.filter (fun u => u.org_id == org) = [] := by
        rw [List.filter_eq_nil_iff]
        intro b hb
        simp only [beq_iff_eq]
        intro hcb
        exact ha b hb (horg.trans hcb.symm)
      rw [this]
    · rw [List.filter_cons_of_neg (by simpa using horg)]
      rcases ih hl with h | ⟨t, hfil, hmem, htorg⟩
      · exact Or.inl h
      · exact Or.inr ⟨t, hfil, List.mem_cons_of_mem a hmem, htorg⟩

/-- `_get_or_bootstrap_tenant` on a database with no mappings and no
workspaces, cached policies and well-formed tenant rows: it finds or creates
the tenant row, bootstraps it, and appends exactly one `BOOTSTRAP_TENANT`
event. -/
theorem get_or_bootstrap_tenant_fresh {s : ServiceState} {pu au : String}
    (org : String) (acct : Option String)
    (hnomap : s.db.mappings = [])
    (hws : s.db.workspaces = [])
    (hcp : s.platform_default_policy_uuid = some pu)
    (hca : s.admin_default_policy_uuid = some au)
    (hpw : s.db.tenants.Pairwise (fun a b => a.org_id ≠ b.org_id))
    (hnames : ∀ t ∈ s.db.tenants, t.tenant_name = "org" ++ t.org_id) :
    ∃ S t ev,
      get_or_bootstrap_tenant s org acct = .ok (S,
        { tenant := t
          mapping := some (TenantMapping.new t none)
          default_workspace := some (default_workspace_of s.settings t)
          root_workspace := some (root_workspace_of s.settings t) }) ∧
      t.org_id = org ∧
      S.events = s.events ++ [ev] ∧
      ev.event_type = ReplicationEventType.BOOTSTRAP_TENANT ∧
      S.settings = s.settings := by
  have hanyW : ∀ (wid : String),
      s.db.workspaces.any (fun w => w.id == wid) = false := by
    intro wid; rw [hws]; rfl
  have hanyM : ∀ (tid : Nat),
      s.db.mappings.any (fun m => m.tenant_id == tid) = false := by
    intro tid; rw [hnomap]; rfl
  rcases filter_org_unique s.db.tenants hpw org with hfil | ⟨t, hfil, hmem, htorg⟩
  · -- no tenant row: create one, then bootstrap it
    set tNew : Tenant :=
      { id := s.db.next_tenant_id
        org_id := org
        account_id := acct
        tenant_name := "org" ++ org
        ready := true
        platform_default_groups := none } with htNew
    set s' : ServiceState := { s with db := { s.db with
      tenants := s.db.tenants ++ [tNew]
      next_tenant_id := s.db.next_tenant_id + 1 } } with hs'
    have hpub : ¬ tNew.tenant_name = "public" := org_tenant_name_ne_public org
    have hchar := bootstrap_tenant_inner_eq (s := s') tNew hpub
      (hanyW _) (hanyW _) (hanyM _)
      (get_platform_cached (s := s') hcp) (get_admin_cached (s := s') hca)
    have hmnil : mappings_for_tenant s'.db tNew = [] := by
      unfold mappings_for_tenant
      show List.filter _ s.db.mappings = []
      rw [hnomap]
      rfl
    refine ⟨{ s' with
        db := { s'.db with
          workspaces := s'.db.workspaces ++
            [root_workspace_of s'.settings tNew, default_workspace_of s'.settings tNew]
          mappings := s'.db.mappings ++ [TenantMapping.new tNew none] }
        log := s'.log ++ access_warnings (some pu) (some au)
        events := s'.events ++
          [{ event_type := ReplicationEventType.BOOTSTRAP_TENANT
             partition_key := s'.settings.ENV_NAME
             add := hierarchy_tuples s'.settings tNew ++
               default_access_tuples tNew (TenantMapping.new tNew none)
                 (default_workspace_id_of tNew.org_id) (some pu) (some au)
             remove := [] }] },
      tNew,
      { event_type := ReplicationEventType.BOOTSTRAP_TENANT
        partition_key := s'.settings.ENV_NAME
        add := hierarchy_tuples s'.settings tNew ++
          default_access_tuples tNew (TenantMapping.new tNew none)
            (default_workspace_id_of tNew.org_id) (some pu) (some au)
        remove := [] }, ?_, rfl, rfl, rfl, rfl⟩
    unfold get_or_bootstrap_tenant
    rw [hfil]
    simp only [bind, Except.bind]
    rw [hmnil]
    rw [hchar]
  · -- the tenant row exists and has no mapping: bootstrap it
    have hpub : ¬ t.tenant_name = "public" := by
      rw [hnames t hmem]
      exact org_tenant_name_ne_public t.org_id
    have hchar := bootstrap_tenant_inner_eq (s := s) t hpub
      (hanyW _) (hanyW _) (hanyM _)
      (get_platform_cached hcp) (get_admin_cached hca)
    have hmnil : mappings_for_tenant s.db t = [] := by
      unfold mappings_for_tenant
      rw [hnomap]
      rfl
    refine ⟨{ s with
        db := { s.db with
          workspaces := s.db.workspaces ++
            [root_workspace_of s.settings t, default_workspace_of s.settings t]
          mappings := s.db.mappings ++ [TenantMapping.new t none] }
        log := s.log ++ access_warnings (some pu) (some au)
        events := s.events ++
          [{ event_type := ReplicationEventType.BOOTSTRAP_TENANT
             partition_key := s.settings.ENV_NAME
             add := hierarchy_tuples s.settings t ++
               default_access_tuples t (TenantMapping.new t none)
                 (default_workspace_id_of t.org_id) (some pu) (some au)
             remove := [] }] },
      t,
      { event_type := ReplicationEventType.BOOTSTRAP_TENANT
        partition_key := s.settings.ENV_NAME
        add := hierarchy_tuples s.settings t ++
          default_access_tuples t (TenantMapping.new t none)
            (default_workspace_id_of t.org_id) (some pu) (some au)
        remove := [] }, ?_, htorg, rfl, rfl, rfl⟩
    unfold get_or_bootstrap_tenant
    rw [hfil]
    simp only [bind, Except.bind]
    rw [hmnil]
    rw [hchar]

/-- The single-user update path on a fresh-org state: one `BOOTSTRAP_TENANT`
event followed by one `EXTERNAL_USER_UPDATE` event whose edits are exactly
`per_user_edits`. -/
theorem update_user_fresh_single {s : ServiceState} {pu au : String}
    (u : User) (upsert : Bool) (org uid : String)
    (horg : u.org_id = some org) (huid : u.user_id = some uid)
    (hact : u.is_active = true) (hsvc : u.is_service_account = false)
    (hnomap : s.db.mappings = [])
    (hws : s.db.workspaces = [])
    (hcp : s.platform_default_policy_uuid = some pu)
    (hca : s.admin_default_policy_uuid = some au)
    (hpw : s.db.tenants.Pairwise (fun a b => a.org_id ≠ b.org_id))
    (hnames : ∀ t ∈ s.db.tenants, t.tenant_name = "org" ++ t.org_id) :
    ∃ S b pre ev,
      update_user s u upsert none = .ok (S, some b) ∧
      S.events = s.events ++ pre ++ [ev] ∧
      (∀ e ∈ pre, e.event_type = ReplicationEventType.BOOTSTRAP_TENANT) ∧
      ev.event_type = ReplicationEventType.EXTERNAL_USER_UPDATE ∧
      ev.add = (per_user_edits u).1 ∧ ev.remove = (per_user_edits u).2 := by
  obtain ⟨S1, t, bev, hgb, htorg, hev1, hbevty, hset1⟩ :=
    get_or_bootstrap_tenant_fresh (s := s) org u.account hnomap hws hcp hca hpw hnames
  have hedits : default_group_tuple_edits u (TenantMapping.new t none) =
      .ok (per_user_edits u) := by
    refine default_group_tuple_edits_eq_per_user horg huid ?_ ?_
    · rw [show (TenantMapping.new t none).default_group_uuid =
        default_group_uuid_of t.org_id from rfl, htorg]
    · rw [show (TenantMapping.new t none).default_admin_group_uuid =
        default_admin_group_uuid_of t.org_id from rfl, htorg]
  unfold update_user
  rw [horg]
  simp only [hact, Bool.not_true, Bool.false_eq_true, if_false, hgb, hsvc, huid,
    bind, Except.bind, pure, Except.pure, hedits]
  refine ⟨_, _, [bev],
    { event_type := ReplicationEventType.EXTERNAL_USER_UPDATE
      partition_key := PartitionKey.byEnvironment S1.settings
      add := (per_user_edits u).1
      remove := (per_user_edits u).2 }, rfl, ?_, ?_, rfl, rfl, rfl⟩
  · simp only [replicate]
    rw [hev1]
  · intro e he
    rw [List.mem_singleton.mp he]
    exact hbevty

theorem workspaces_bulk_create_ok (ws : List Workspace) :
    ∀ (db : DB),
    (∀ w ∈ ws, ∀ w0 ∈ db.workspaces, w0.id ≠ w.id) →
    ws.Pairwise (fun a b => a.id ≠ b.id) →
    workspaces_bulk_create db ws = .ok { db with workspaces := db.workspaces ++ ws } := by
  induction ws with
  | nil =>
    intro db _ _
    simp [workspaces_bulk_create]
  | cons w rest ih =>
    intro db hfresh hpw
    rcases List.pairwise_cons.mp hpw with ⟨hw, hrest⟩
    have hany : db.workspaces.any (fun w0 => w0.id == w.id) = false := by
      rw [List.any_eq_false]
      intro x hx
      simpa using hfresh w (List.mem_cons_self w rest) x hx
    unfold workspaces_bulk_create workspace_force_insert
    simp only [hany, Bool.false_eq_true, if_false, bind, Except.bind]
    rw [ih { db with workspaces := db.workspaces ++ [w] } ?_ hrest]
    · simp
    · intro w' hw' w0 hw0
      rcases List.mem_append.mp hw0 with h0 | h0
      · exact hfresh w' (List.mem_cons_of_mem w hw') w0 h0
      · rw [List.mem_singleton.mp h0]
        exact hw w' hw'

theorem tenant_mappings_bulk_create_ok (ms : List TenantMapping) :
    ∀ (db : DB),
    (∀ m ∈ ms, ∀ m0 ∈ db.mappings, m0.tenant_id ≠ m.tenant_id) →
    ms.Pairwise (fun a b => a.tenant_id ≠ b.tenant_id) →
    tenant_mappings_bulk_create db ms =
      .ok { db with mappings := db.mappings ++ ms } := by
  induction ms with
  | nil =>
    intro db _ _
    simp [tenant_mappings_bulk_create]
  | cons m rest ih =>
    intro db hfresh hpw
    rcases List.pairwise_cons.mp hpw with ⟨hm, hrest⟩
    have hany : db.mappings.any (fun m0 => m0.tenant_id == m.tenant_id) = false := by
      rw [List.any_eq_false]
      intro x hx
      simpa using hfresh m (List.mem_cons_self m rest) x hx
    unfold tenant_mappings_bulk_create tenant_mapping_insert
    simp only [hany, Bool.false_eq_true, if_false, bind, Except.bind]
    rw [ih { db with mappings := db.mappings ++ [m] } ?_ hrest]
    · simp
    · intro m' hm' m0 hm0
      rcases List.mem_append.mp hm0 with h0 | h0
      · exact hfresh m' (List.mem_cons_of_mem m hm') m0 h0
      · rw [List.mem_singleton.mp h0]
        exact hm m' hm'

theorem zip_map_self {α β : Type} (f : α → β) (l : List α) :
    l.zip (l.map f) = l.map (fun a => (a, f a)) := by
  induction l with
  | nil => rfl
  | cons a rest ih => simp [List.zip_cons_cons, ih]

theorem find_mapping_in_map (tenants : List Tenant)
    (hpw : tenants.Pairwise (fun a b => a.id ≠ b.id)) :
    ∀ t ∈ tenants,
      (tenants.map (fun t => TenantMapping.new t (custom_default_group_uuid t))).find?
        (fun m => m.tenant_id == t.id) =
      some (TenantMapping.new t (custom_default_group_uuid t)) := by
  induction tenants with
  | nil => intro t h; cases h
  | cons a rest ih =>
    intro t ht
    rcases List.pairwise_cons.mp hpw with ⟨ha, hrest⟩
    rcases List.mem_cons.mp ht with heq | hmem
    · subst heq
      rw [List.map_cons, List.find?_cons_of_pos _ (by simp [TenantMapping.new])]
    · rw [List.map_cons, List.find?_cons_of_neg _ ?_]
      · exact ih hrest t hmem
      · simp only [TenantMapping.new, beq_iff_eq]
        exact ha t hmem

/-- The per-tenant default-access loop when both policies are cached: a pure
map, no state change. -/
theorem bulk_default_access_loop_cached {s : ServiceState} {pu au : String}
    (hcp : s.platform_default_policy_uuid = some pu)
    (hca : s.admin_default_policy_uuid = some au)
    (ms : List TenantMapping) (pairs : List (Tenant × String))
    (hfind : ∀ p ∈ pairs, ms.find? (fun m => m.tenant_id == p.1.id) =
      some (TenantMapping.new p.1 (custom_default_group_uuid p.1))) :
    bulk_default_access_loop s ms pairs = .ok (s,
      (pairs.map (fun p => default_access_tuples p.1
        (TenantMapping.new p.1 (custom_default_group_uuid p.1)) p.2
        (some pu) (some au))).flatten,
      pairs.map (fun p =>
        ({ tenant := p.1
           mapping := some (TenantMapping.new p.1 (custom_default_group_uuid p.1))
           default_workspace := none
           root_workspace := none } : BootstrappedTenant))) := by
  induction pairs with
  | nil => rfl
  | cons p rest ih =>
    obtain ⟨t, wid⟩ := p
    unfold bulk_default_access_loop
    rw [hfind (t, wid) (List.mem_cons_self _ rest)]
    dsimp only
    rw [bootstrap_default_access_cached t
      (TenantMapping.new t (custom_default_group_uuid t)) wid hcp hca]
    simp only [bind, Except.bind]
    rw [ih (fun q hq => hfind q (List.mem_cons_of_mem _ hq))]
    simp

/-- Characterization of `_bootstrap_tenants` under cached policies and
pairwise-distinct tenant rows: it inserts each tenant's two built-in
workspaces and mapping and emits one `BULK_BOOTSTRAP_TENANT` event carrying
every tenant's hierarchy tuples followed by every tenant's default-access
tuples. -/
theorem bootstrap_tenants_bulk_cached {s : ServiceState} {pu au : String}
    (tenants : List Tenant)
    (hcp : s.platform_default_policy_uuid = some pu)
    (hca : s.admin_default_policy_uuid = some au)
    (hfreshws : ∀ t ∈ tenants, ∀ w0 ∈ s.db.workspaces,
      w0.id ≠ root_workspace_id_of t.org_id ∧
      w0.id ≠ default_workspace_id_of t.org_id)
    (hpworg : tenants.Pairwise (fun a b => a.org_id ≠ b.org_id))
    (hpwid : tenants.Pairwise (fun a b => a.id ≠ b.id))
    (hmapfresh : ∀ t ∈ tenants, ∀ m0 ∈ s.db.mappings, m0.tenant_id ≠ t.id) :
    bootstrap_tenants_bulk s tenants = .ok (
      { s with
        db := { s.db with
          workspaces := s.db.workspaces ++ (tenants.map (fun t =>
            [root_workspace_of s.settings t,
             default_workspace_of s.settings t])).flatten
          mappings := s.db.mappings ++ tenants.map (fun t =>
            TenantMapping.new t (custom_default_group_uuid t)) }
        events := s.events ++
          [{ event_type := ReplicationEventType.BULK_BOOTSTRAP_TENANT
             partition_key := s.settings.ENV_NAME
             add := (tenants.map (fun t => hierarchy_tuples s.settings t)).flatten ++
               (tenants.map (fun t => default_access_tuples t
                 (TenantMapping.new t (custom_default_group_uuid t))
                 (default_workspace_id_of t.org_id) (some pu) (some au))).flatten
             remove := [] }] },
      tenants.map (fun t =>
        ({ tenant := t
           mapping := some (TenantMapping.new t (custom_default_group_uuid t))
           default_workspace := none
           root_workspace := none } : BootstrappedTenant))) := by
  have hlamws : (fun (t : Tenant) =>
      (fun (x : Workspace × Workspace × List Relationship) => [x.1, x.2.1])
        (built_in_workspaces s.settings t)) =
      (fun t => [root_workspace_of s.settings t, default_workspace_of s.settings t]) :=
    rfl
  have hwsflat_pw : ((tenants.map (fun t =>
      [root_workspace_of s.settings t, default_workspace_of s.settings t])).flatten).Pairwise
        (fun a b => a.id ≠ b.id) := by
    rw [List.pairwise_flatten]
    constructor
    · intro l hl
      rcases List.mem_map.mp hl with ⟨t, -, rfl⟩
      rw [List.pairwise_pair]
      simp only [root_workspace_of_id, default_workspace_of_id]
      exact root_ne_default_ws_id t.org_id
    · rw [List.pairwise_map]
      refine hpworg.imp ?_
      intro a b hab x hx y hy
      rcases List.mem_pair.mp hx with rfl | rfl <;>
        rcases List.mem_pair.mp hy with rfl | rfl <;>
          simp only [root_workspace_of_id, default_workspace_of_id]
      · exact fun h => hab (root_ws_id_inj h)
      · exact root_ne_default_ws_id_any a.org_id b.org_id
      · exact fun h => (root_ne_default_ws_id_any b.org_id a.org_id) h.symm
      · exact fun h => hab (default_ws_id_inj h)
  have hwsflat_fresh : ∀ w ∈ (tenants.map (fun t =>
      [root_workspace_of s.settings t, default_workspace_of s.settings t])).flatten,
      ∀ w0 ∈ s.db.workspaces, w0.id ≠ w.id := by
    intro w hw w0 hw0
    rcases List.mem_flatten.mp hw with ⟨l, hl, hwl⟩
    rcases List.mem_map.mp hl with ⟨t, htmem, rfl⟩
    rcases List.mem_pair.mp hwl with rfl | rfl
    · simpa using (hfreshws t htmem w0 hw0).1
    · simpa using (hfreshws t htmem w0 hw0).2
  have hms_pw : (tenants.map (fun t =>
      TenantMapping.new t (custom_default_group_uuid t))).Pairwise
        (fun a b => a.tenant_id ≠ b.tenant_id) := by
    rw [List.pairwise_map]
    refine hpwid.imp ?_
    intro a b hab
    simpa [TenantMapping.new] using hab
  have hms_fresh : ∀ m ∈ tenants.map (fun t =>
      TenantMapping.new t (custom_default_group_uuid t)),
      ∀ m0 ∈ s.db.mappings, m0.tenant_id ≠ m.tenant_id := by
    intro m hm m0 hm0
    rcases List.mem_map.mp hm with ⟨t, htmem, rfl⟩
    simpa [TenantMapping.new] using hmapfresh t htmem m0 hm0
  have hfind : ∀ p ∈ tenants.map
      (fun t => (t, default_workspace_id_of t.org_id)),
      (tenants.map (fun t =>
        TenantMapping.new t (custom_default_group_uuid t))).find?
        (fun m => m.tenant_id == p.1.id) =
      some (TenantMapping.new p.1 (custom_default_group_uuid p.1)) := by
    intro p hp
    rcases List.mem_map.mp hp with ⟨t, htmem, rfl⟩
    exact find_mapping_in_map tenants hpwid t htmem
  unfold bootstrap_tenants_bulk
  rw [show (fun (t : Tenant) =>
      let (root, dflt, _) := built_in_workspaces s.settings t
      [root, dflt]) =
    (fun t => [root_workspace_of s.settings t, default_workspace_of s.settings t])
    from rfl]
  rw [show (fun (t : Tenant) => (built_in_workspaces s.settings t).2.2) =
    (fun t => hierarchy_tuples s.settings t) from rfl]
  rw [show (fun (t : Tenant) => (built_in_workspaces s.settings t).2.1.id) =
    (fun t => default_workspace_id_of t.org_id) from rfl]
  rw [zip_map_self]
  dsimp only
  rw [workspaces_bulk_create_ok _ s.db hwsflat_fresh hwsflat_pw]
  simp only [bind, Except.bind]
  rw [tenant_mappings_bulk_create_ok _ _ ?hfr hms_pw]
  case hfr =>
    intro m hm m0 hm0
    exact hms_fresh m hm m0 hm0
  simp only [bind, Except.bind]
  rw [bulk_default_access_loop_cached
    (s := { settings := s.settings
            db := { tenants := s.db.tenants
                    mappings := s.db.mappings ++ tenants.map (fun t =>
                      TenantMapping.new t (custom_default_group_uuid t))
                    workspaces := s.db.workspaces ++ (tenants.map (fun t =>
                      [root_workspace_of s.settings t,
                       default_workspace_of s.settings t])).flatten
                    principals := s.db.principals
                    groups := s.db.groups
                    next_tenant_id := s.db.next_tenant_id }
            events := s.events
            log := s.log
            public_tenant := s.public_tenant
            platform_default_policy_uuid := s.platform_default_policy_uuid
            admin_default_policy_uuid := s.admin_default_policy_uuid })
    hcp hca _ _ hfind]
  simp only [bind, Except.bind, replicate, PartitionKey.byEnvironment]
  simp only [List.map_map, Function.comp_def]

/-- The tenant rows built from `l.enumFrom start` carry ids at least
`base + start`, org ids and names drawn from `l`, no prefetched groups,
pairwise-distinct ids, and (for `l` without duplicates) pairwise-distinct
org ids; every org id of `l` is realized by a row. -/
theorem enum_tenant_rows_spec (base : Nat) :
    ∀ (start : Nat) (l : List String),
    (∀ t ∈ (List.enumFrom start l).map (enum_tenant_row base),
        base + start ≤ t.id ∧ t.org_id ∈ l ∧
        t.tenant_name = "org" ++ t.org_id ∧ t.platform_default_groups = none) ∧
    (∀ o ∈ l, ∃ t ∈ (List.enumFrom start l).map (enum_tenant_row base),
        t.org_id = o) ∧
    ((List.enumFrom start l).map (enum_tenant_row base)).Pairwise
      (fun a b => a.id ≠ b.id) ∧
    (l.Nodup →
      ((List.enumFrom start l).map (enum_tenant_row base)).Pairwise
        (fun a b => a.org_id ≠ b.org_id)) := by
  intro start l
  induction l generalizing start with
  | nil =>
    refine ⟨?_, ?_, ?_, ?_⟩ <;> simp [List.enumFrom]
  | cons o rest ih =>
    obtain ⟨ih1, ih2, ih3, ih4⟩ := ih (start + 1)
    rw [List.enumFrom_cons, List.map_cons]
    refine ⟨?_, ?_, ?_, ?_⟩
    · intro t ht
      rcases List.mem_cons.mp ht with rfl | hmem
      · exact ⟨Nat.le_refl _, List.mem_cons_self o rest, rfl, rfl⟩
      · obtain ⟨hle, horg, hname, hpre⟩ := ih1 t hmem
        exact ⟨Nat.le_trans (Nat.le_succ _) hle,
          List.mem_cons_of_mem o horg, hname, hpre⟩
    · intro o' ho'
      rcases List.mem_cons.mp ho' with rfl | hmem
      · exact ⟨enum_tenant_row base (start, o'), List.mem_cons_self _ _, rfl⟩
      · obtain ⟨t, htmem, horg⟩ := ih2 o' hmem
        exact ⟨t, List.mem_cons_of_mem _ htmem, horg⟩
    · rw [List.pairwise_cons]
      refine ⟨?_, ih3⟩
      intro t ht
      have hle := (ih1 t ht).1
      show base + start ≠ t.id
      omega
    · intro hnd
      rcases List.nodup_cons.mp hnd with ⟨honotin, hndrest⟩
      rw [List.pairwise_cons]
      refine ⟨?_, ih4 hndrest⟩
      intro t ht
      have horg := (ih1 t ht).2.1
      show (enum_tenant_row base (start, o)).org_id ≠ t.org_id
      intro hcontra
      apply honotin
      have ho' : o = t.org_id := hcontra
      rw [ho']
      exact horg

/-- The first `import_bulk_users` loop, generalized over the accumulator:
when every user is active and carries an org id, no warning is appended and
the org-id accumulator collects exactly the users' org ids, without
duplicates. -/
theorem collect_org_ids_fold (users : List User)
    (hall : ∀ u ∈ users, u.is_active = true ∧ (u.org_id).isSome = true) :
    ∀ acc : List String × List String, acc.1.Nodup →
    ∃ A, users.foldl
      (fun (acc : List String × List String) user =>
        if !user.is_active then acc
        else
          match user.org_id with
          | none =>
            (acc.1, acc.2 ++
              ["Cannot update user without org_id. Skipping. username=" ++ user.username])
          | some o => (if acc.1.contains o then acc.1 else acc.1 ++ [o], acc.2))
      acc = (A, acc.2) ∧ A.Nodup ∧
      (∀ o, o ∈ A ↔ o ∈ acc.1 ∨ ∃ u ∈ users, u.org_id = some o) := by
  induction users with
  | nil =>
    intro acc hnd
    exact ⟨acc.1, rfl, hnd, by simp⟩
  | cons u rest ih =>
    intro acc hnd
    obtain ⟨hact, hsome⟩ := hall u (List.mem_cons_self u rest)
    obtain ⟨o, ho⟩ := Option.isSome_iff_exists.mp hsome
    rw [List.foldl_cons, hact, ho]
    simp only [Bool.not_true, Bool.false_eq_true, if_false]
    have hallrest : ∀ v ∈ rest, v.is_active = true ∧ (v.org_id).isSome = true :=
      fun v hv => hall v (List.mem_cons_of_mem u hv)
    by_cases hc : acc.1.contains o = true
    · have homem : o ∈ acc.1 := by
        simpa [List.contains, List.elem_iff] using hc
      rw [if_pos hc]
      obtain ⟨A, hfold, hndA, hmemA⟩ :=
        ih hallrest (acc.1, acc.2) hnd
      refine ⟨A, hfold, hndA, ?_⟩
      intro o'
      rw [hmemA o']
      constructor
      · rintro (h1 | ⟨v, hv, hvo⟩)
        · exact Or.inl h1
        · exact Or.inr ⟨v, List.mem_cons_of_mem u hv, hvo⟩
      · rintro (h1 | ⟨v, hv, hvo⟩)
        · exact Or.inl h1
        · rcases List.mem_cons.mp hv with rfl | hvrest
          · rw [ho] at hvo
            exact Or.inl (Option.some.inj hvo ▸ homem)
          · exact Or.inr ⟨v, hvrest, hvo⟩
    · have honotin : o ∉ acc.1 := by
        intro hmem
        exact hc (by simpa [List.contains, List.elem_iff] using hmem)
      rw [if_neg hc]
      have hnd' : (acc.1 ++ [o]).Nodup := by
        rw [List.nodup_append]
        exact ⟨hnd, List.nodup_singleton o,
          fun a ha hb => honotin ((List.mem_singleton.mp hb) ▸ ha)⟩
      obtain ⟨A, hfold, hndA, hmemA⟩ :=
        ih hallrest (acc.1 ++ [o], acc.2) hnd'
      refine ⟨A, hfold, hndA, ?_⟩
      intro o'
      rw [hmemA o']
      constructor
      · rintro (h1 | ⟨v, hv, hvo⟩)
        · rcases List.mem_append.mp h1 with h1a | h1o
          · exact Or.inl h1a
          · exact Or.inr ⟨u, List.mem_cons_self u rest,
              by rw [ho, List.mem_singleton.mp h1o]⟩
        · exact Or.inr ⟨v, List.mem_cons_of_mem u hv, hvo⟩
      · rintro (h1 | ⟨v, hv, hvo⟩)
        · exact Or.inl (List.mem_append.mpr (Or.inl h1))
        · rcases List.mem_cons.mp hv with rfl | hvrest
          · rw [ho] at hvo
            exact Or.inl (List.mem_append.mpr (Or.inr
              (List.mem_singleton.mpr (Option.some.inj hvo).symm)))
          · exact Or.inr ⟨v, hvrest, hvo⟩

/-- `collect_org_ids` on active users that all carry an org id: no warnings,
and the collected org ids are exactly the users' org ids, without
duplicates. -/
theorem collect_org_ids_spec (users : List User)
    (hall : ∀ u ∈ users, u.is_active = true ∧ (u.org_id).isSome = true) :
    ∃ A, collect_org_ids users = (A, []) ∧ A.Nodup ∧
      (∀ o, o ∈ A ↔ ∃ u ∈ users, u.org_id = some o) := by
  obtain ⟨A, hfold, hnd, hmem⟩ :=
    collect_org_ids_fold users hall ([], []) List.nodup_nil
  refine ⟨A, ?_, hnd, ?_⟩
  · unfold collect_org_ids
    exact hfold
  · intro o
    rw [hmem o]
    simp

/-- `_get_or_bootstrap_tenants` on a database with no mappings and no
workspaces, cached policies, well-formed tenant rows and no custom
`platform_default` groups: it bootstraps a row for every requested org id in
one bulk pass, emits exactly one `BULK_BOOTSTRAP_TENANT` event, and every
requested org id is found in the result with the generated default and
admin group identifiers in its mapping. -/
theorem get_or_bootstrap_tenants_fresh {s : ServiceState} {pu au : String}
    (org_ids : List String)
    (hnomap : s.db.mappings = [])
    (hws : s.db.workspaces = [])
    (hcp : s.platform_default_policy_uuid = some pu)
    (hca : s.admin_default_policy_uuid = some au)
    (hpworg : s.db.tenants.Pairwise (fun a b => a.org_id ≠ b.org_id))
    (hpwid : s.db.tenants.Pairwise (fun a b => a.id ≠ b.id))
    (hidlt : ∀ t ∈ s.db.tenants, t.id < s.db.next_tenant_id)
    (hnames : ∀ t ∈ s.db.tenants, t.tenant_name = "org" ++ t.org_id)
    (hnoplat : ∀ g ∈ s.db.groups, g.platform_default = false)
    (hnd : org_ids.Nodup) :
    ∃ S bts ev,
      get_or_bootstrap_tenants s org_ids = .ok (S, bts) ∧
      S.events = s.events ++ [ev] ∧
      ev.event_type = ReplicationEventType.BULK_BOOTSTRAP_TENANT ∧
      S.settings = s.settings ∧
      S.db.principals = s.db.principals ∧
      S.log = s.log ∧
      (∀ org ∈ org_ids, ∃ b m,
        bts.find? (fun b => b.tenant.org_id == org) = some b ∧
        b.mapping = some m ∧
        m.default_group_uuid = default_group_uuid_of org ∧
        m.default_admin_group_uuid = default_admin_group_uuid_of org) := by
  have hEX_org_pw : ((s.db.tenants.filter (fun t => org_ids.contains t.org_id)).map
      (with_platform_default_prefetch s.db)).Pairwise
        (fun a b => a.org_id ≠ b.org_id) := by
    rw [List.pairwise_map]
    exact (List.Pairwise.filter _ hpworg).imp (fun h => by simpa using h)
  have hEX_id_pw : ((s.db.tenants.filter (fun t => org_ids.contains t.org_id)).map
      (with_platform_default_prefetch s.db)).Pairwise
        (fun a b => a.id ≠ b.id) := by
    rw [List.pairwise_map]
    exact (List.Pairwise.filter _ hpwid).imp (fun h => by simpa using h)
  have hEX_facts : ∀ t ∈ (s.db.tenants.filter
      (fun t => org_ids.contains t.org_id)).map (with_platform_default_prefetch s.db),
      t.id < s.db.next_tenant_id ∧ t.tenant_name = "org" ++ t.org_id ∧
      custom_default_group_uuid t = none := by
    intro t ht
    rcases List.mem_map.mp ht with ⟨t0, ht0, rfl⟩
    have ht0' := List.mem_of_mem_filter ht0
    refine ⟨?_, ?_, ?_⟩
    · simpa using hidlt t0 ht0'
    · exact hnames t0 ht0'
    · unfold custom_default_group_uuid with_platform_default_prefetch
      dsimp only
      have hgnil : s.db.groups.filter
          (fun g => g.tenant_id == t0.id && g.platform_default) = [] := by
        rw [List.filter_eq_nil_iff]
        intro g hg
        simp [hnoplat g hg]
      rw [hgnil]
  have hndnew : (org_ids.filter (fun o =>
      !(((s.db.tenants.filter (fun t => org_ids.contains t.org_id)).map
        (with_platform_default_prefetch s.db)).any (fun t => t.org_id == o)))).Nodup :=
    hnd.filter _
  obtain ⟨hNT1, hNT2, hNT3, hNT4⟩ :=
    enum_tenant_rows_spec s.db.next_tenant_id 0
      (org_ids.filter (fun o =>
        !(((s.db.tenants.filter (fun t => org_ids.contains t.org_id)).map
          (with_platform_default_prefetch s.db)).any (fun t => t.org_id == o))))
  have hTBeq : ((s.db.tenants.filter (fun t => org_ids.contains t.org_id)).map
      (with_platform_default_prefetch s.db)).filter
        (fun t => (mappings_for_tenant s.db t).isEmpty) =
      (s.db.tenants.filter (fun t => org_ids.contains t.org_id)).map
        (with_platform_default_prefetch s.db) := by
    rw [List.filter_eq_self]
    intro t _
    unfold mappings_for_tenant
    rw [hnomap]
    rfl
  have hFPeq : (((s.db.tenants.filter (fun t => org_ids.contains t.org_id)).map
      (with_platform_default_prefetch s.db)).filterMap (fun t =>
      (mappings_for_tenant s.db t).head?.map (fun m =>
        ({ tenant := t
           mapping := some m
           default_workspace := none
           root_workspace := none } : BootstrappedTenant)))) = [] := by
    rw [List.filterMap_eq_nil_iff]
    intro t _
    unfold mappings_for_tenant
    rw [hnomap]
    rfl
  unfold get_or_bootstrap_tenants
  simp only [bind, Except.bind]
  rw [hFPeq, hTBeq]
  simp only [List.nil_append]
  rw [show (fun (x : Nat × String) =>
      ({ id := s.db.next_tenant_id + x.1, org_id := x.2, account_id := none,
         tenant_name := "org" ++ x.2, ready := true,
         platform_default_groups := none } : Tenant)) =
    enum_tenant_row s.db.next_tenant_id from rfl]
  rw [show (org_ids.filter (fun o =>
      !(((s.db.tenants.filter (fun t => org_ids.contains t.org_id)).map
        (with_platform_default_prefetch s.db)).any (fun t => t.org_id == o)))).enum =
    List.enumFrom 0 (org_ids.filter (fun o =>
      !(((s.db.tenants.filter (fun t => org_ids.contains t.org_id)).map
        (with_platform_default_prefetch s.db)).any (fun t => t.org_id == o))))
    from rfl]
  have hbulk := bootstrap_tenants_bulk_cached
    (s := { settings := s.settings
            db := { tenants := s.db.tenants ++
                      (List.enumFrom 0 (org_ids.filter (fun o =>
                        !(((s.db.tenants.filter (fun t => org_ids.contains t.org_id)).map
                          (with_platform_default_prefetch s.db)).any
                            (fun t => t.org_id == o))))).map
                        (enum_tenant_row s.db.next_tenant_id)
                    mappings := s.db.mappings
                    workspaces := s.db.workspaces
                    principals := s.db.principals
                    groups := s.db.groups
                    next_tenant_id := s.db.next_tenant_id +
                      ((List.enumFrom 0 (org_ids.filter (fun o =>
                        !(((s.db.tenants.filter (fun t => org_ids.contains t.org_id)).map
                          (with_platform_default_prefetch s.db)).any
                            (fun t => t.org_id == o))))).map
                        (enum_tenant_row s.db.next_tenant_id)).length }
            events := s.events
            log := s.log
            public_tenant := s.public_tenant
            platform_default_policy_uuid := s.platform_default_policy_uuid
            admin_default_policy_uuid := s.admin_default_policy_uuid })
    ((s.db.tenants.filter (fun t => org_ids.contains t.org_id)).map
        (with_platform_default_prefetch s.db) ++
      (List.enumFrom 0 (org_ids.filter (fun o =>
        !(((s.db.tenants.filter (fun t => org_ids.contains t.org_id)).map
          (with_platform_default_prefetch s.db)).any (fun t => t.org_id == o))))).map
        (enum_tenant_row s.db.next_tenant_id))
    hcp hca
    (by
      intro t ht w0 hw0
      have h0 : w0 ∈ s.db.workspaces := hw0
      rw [hws] at h0
      cases h0)
    (by
      rw [List.pairwise_append]
      refine ⟨hEX_org_pw, hNT4 hndnew, ?_⟩
      intro a ha b hb
      obtain ⟨-, horgb, -, -⟩ := hNT1 b hb
      rcases List.mem_filter.mp horgb with ⟨-, hcond⟩
      rw [Bool.not_eq_true', List.any_eq_false] at hcond
      intro heq
      exact hcond a ha (beq_iff_eq.mpr heq))
    (by
      rw [List.pairwise_append]
      refine ⟨hEX_id_pw, hNT3, ?_⟩
      intro a ha b hb
      have hlt := (hEX_facts a ha).1
      have hge := (hNT1 b hb).1
      omega)
    (by
      intro t ht m0 hm0
      have h0 : m0 ∈ s.db.mappings := hm0
      rw [hnomap] at h0
      cases h0)
  rw [hbulk]
  dsimp only
  refine ⟨_, _, _, rfl, rfl, rfl, rfl, rfl, rfl, ?_⟩
  intro org horg
  rw [List.find?_map]
  simp only [Function.comp_def]
  have hex : ∃ t, t ∈ ((s.db.tenants.filter (fun t => org_ids.contains t.org_id)).map
        (with_platform_default_prefetch s.db) ++
      (List.enumFrom 0 (org_ids.filter (fun o =>
        !(((s.db.tenants.filter (fun t => org_ids.contains t.org_id)).map
          (with_platform_default_prefetch s.db)).any (fun t => t.org_id == o))))).map
        (enum_tenant_row s.db.next_tenant_id)) ∧ (t.org_id == org) = true := by
    cases hc : ((s.db.tenants.filter (fun t => org_ids.contains t.org_id)).map
        (with_platform_default_prefetch s.db)).any (fun t => t.org_id == org) with
    | true =>
      obtain ⟨t, ht, htb⟩ := List.any_eq_true.mp hc
      exact ⟨t, List.mem_append_left _ ht, htb⟩
    | false =>
      have horgnew : org ∈ org_ids.filter (fun o =>
          !(((s.db.tenants.filter (fun t => org_ids.contains t.org_id)).map
            (with_platform_default_prefetch s.db)).any (fun t => t.org_id == o))) :=
        List.mem_filter.mpr ⟨horg, by rw [hc]; rfl⟩
      obtain ⟨t, ht, htorg⟩ := hNT2 org horgnew
      exact ⟨t, List.mem_append_right _ ht, beq_iff_eq.mpr htorg⟩
  have hsome := List.find?_isSome.mpr hex
  obtain ⟨t0, hfind0⟩ := Option.isSome_iff_exists.mp hsome
  have hp0 := List.find?_some hfind0
  have ht0org : t0.org_id = org := beq_iff_eq.mp hp0
  have ht0mem := List.mem_of_find?_eq_some hfind0
  have hcust0 : custom_default_group_uuid t0 = none := by
    rcases List.mem_append.mp ht0mem with hEXm | hNTm
    · exact (hEX_facts t0 hEXm).2.2
    · have hpre := (hNT1 t0 hNTm).2.2.2
      unfold custom_default_group_uuid
      rw [hpre]
  rw [hfind0]
  refine ⟨_, TenantMapping.new t0 none, rfl, ?_, ?_, ?_⟩
  · show some (TenantMapping.new t0 (custom_default_group_uuid t0)) =
      some (TenantMapping.new t0 none)
    rw [hcust0]
  · show (TenantMapping.new t0 none).default_group_uuid = default_group_uuid_of org
    rw [show (TenantMapping.new t0 none).default_group_uuid =
      default_group_uuid_of t0.org_id from rfl, ht0org]
  · show (TenantMapping.new t0 none).default_admin_group_uuid =
      default_admin_group_uuid_of org
    rw [show (TenantMapping.new t0 none).default_admin_group_uuid =
      default_admin_group_uuid_of t0.org_id from rfl, ht0org]

/-- The per-user loop of `import_bulk_users` with no prefetched principals:
when every user is active, is not a service account, carries an org id and a
user id, and its org resolves in the bootstrapped batch to a mapping carrying
the generated group identifiers, the loop stages no principal updates, emits
no warnings, and accumulates exactly `per_user_edits` per user, in user
order. -/
theorem import_bulk_users_loop_fresh (bts : List BootstrappedTenant)
    (users : List User)
    (hall : ∀ u ∈ users, u.is_active = true ∧ u.is_service_account = false ∧
      ∃ org uid, u.org_id = some org ∧ u.user_id = some uid ∧
        ∃ b m, bts.find? (fun b => b.tenant.org_id == org) = some b ∧
          b.mapping = some m ∧
          m.default_group_uuid = default_group_uuid_of org ∧
          m.default_admin_group_uuid = default_admin_group_uuid_of org) :
    ∀ adds removes warns,
    import_bulk_users_loop bts [] [] adds removes warns users =
      .ok ([], [], adds ++ (users.map (fun u => (per_user_edits u).1)).flatten,
        removes ++ (users.map (fun u => (per_user_edits u).2)).flatten, warns) := by
  induction users with
  | nil =>
    intro adds removes warns
    simp [import_bulk_users_loop]
  | cons u rest ih =>
    intro adds removes warns
    obtain ⟨hact, hsvc, org, uid, horg, huid, b, m, hfind, hmap, hdg, hag⟩ :=
      hall u (List.mem_cons_self u rest)
    have hedits : default_group_tuple_edits u m = .ok (per_user_edits u) :=
      default_group_tuple_edits_eq_per_user horg huid hdg hag
    have hrest : ∀ v ∈ rest, v.is_active = true ∧ v.is_service_account = false ∧
        ∃ org uid, v.org_id = some org ∧ v.user_id = some uid ∧
          ∃ b m, bts.find? (fun b => b.tenant.org_id == org) = some b ∧
            b.mapping = some m ∧
            m.default_group_uuid = default_group_uuid_of org ∧
            m.default_admin_group_uuid = default_admin_group_uuid_of org :=
      fun v hv => hall v (List.mem_cons_of_mem u hv)
    show import_bulk_users_loop bts [] [] adds removes warns (u :: rest) = _
    unfold import_bulk_users_loop
    rw [hact]
    simp only [Bool.not_true, Bool.false_eq_true, if_false]
    rw [horg]
    dsimp only
    rw [hfind]
    dsimp only [List.find?_nil]
    rw [hmap]
    simp only [bind, Except.bind]
    rw [hedits]
    dsimp only
    rw [ih hrest (adds ++ (per_user_edits u).1) (removes ++ (per_user_edits u).2) warns]
    simp [List.append_assoc]

/-- C5 (corrected: the original claim, quantified over every active user
with org id and user id, is refuted by `claim_c5_counterexample` — the bulk
path computes membership tuple edits for a service account while the
single-user path computes none).  Amended to users that are NOT service
accounts: over tenants with no pre-existing mappings, workspaces, principals
or custom platform-default groups, bulk import produces per user exactly the
same add/remove tuple sets as the single-user update path.  The bulk path
succeeds with one `BULK_BOOTSTRAP_TENANT` event followed by one
`BULK_EXTERNAL_USER_UPDATE` event whose add and remove lists are the
concatenation, in user order, of `per_user_edits u`; the single-user path on
the same initial state emits, for each user, one `EXTERNAL_USER_UPDATE`
event carrying exactly `per_user_edits u`.  The two runs differ only in how
the tuples are grouped into replication events. -/
theorem claim_c5_bulk_matches_single_per_user
    {s : ServiceState} {pu au : String} (users : List User) (upsert : Bool)
    (hnomap : s.db.mappings = [])
    (hws : s.db.workspaces = [])
    (hnoprin : s.db.principals = [])
    (hcp : s.platform_default_policy_uuid = some pu)
    (hca : s.admin_default_policy_uuid = some au)
    (hpworg : s.db.tenants.Pairwise (fun a b => a.org_id ≠ b.org_id))
    (hpwid : s.db.tenants.Pairwise (fun a b => a.id ≠ b.id))
    (hidlt : ∀ t ∈ s.db.tenants, t.id < s.db.next_tenant_id)
    (hnames : ∀ t ∈ s.db.tenants, t.tenant_name = "org" ++ t.org_id)
    (hnoplat : ∀ g ∈ s.db.groups, g.platform_default = false)
    (husers : ∀ u ∈ users, u.is_active = true ∧ u.is_service_account = false ∧
      (u.org_id).isSome = true ∧ (u.user_id).isSome = true) :
    (∃ S bev uev, import_bulk_users s users = .ok S ∧
      S.events = s.events ++ [bev, uev] ∧
      bev.event_type = ReplicationEventType.BULK_BOOTSTRAP_TENANT ∧
      uev.event_type = ReplicationEventType.BULK_EXTERNAL_USER_UPDATE ∧
      uev.add = (users.map (fun u => (per_user_edits u).1)).flatten ∧
      uev.remove = (users.map (fun u => (per_user_edits u).2)).flatten) ∧
    (∀ u ∈ users, ∃ S b pre ev,
      update_user s u upsert none = .ok (S, some b) ∧
      S.events = s.events ++ pre ++ [ev] ∧
      (∀ e ∈ pre, e.event_type = ReplicationEventType.BOOTSTRAP_TENANT) ∧
      ev.event_type = ReplicationEventType.EXTERNAL_USER_UPDATE ∧
      ev.add = (per_user_edits u).1 ∧ ev.remove = (per_user_edits u).2) := by
  refine ⟨?_, ?_⟩
  · have hallact : ∀ u ∈ users, u.is_active = true ∧ (u.org_id).isSome = true :=
      fun u hu => ⟨(husers u hu).1, (husers u hu).2.2.1⟩
    obtain ⟨A, hcoll, hndA, hmemA⟩ := collect_org_ids_spec users hallact
    obtain ⟨S2, bts, bev, hgbt, hev2, hbevty, hsets, hprins, hlog, hfindA⟩ :=
      get_or_bootstrap_tenants_fresh (s := { s with log := s.log ++ [] }) A
        hnomap hws hcp hca hpworg hpwid hidlt hnames hnoplat hndA
    have hloopall : ∀ u ∈ users, u.is_active = true ∧ u.is_service_account = false ∧
        ∃ org uid, u.org_id = some org ∧ u.user_id = some uid ∧
          ∃ b m, bts.find? (fun b => b.tenant.org_id == org) = some b ∧
            b.mapping = some m ∧
            m.default_group_uuid = default_group_uuid_of org ∧
            m.default_admin_group_uuid = default_admin_group_uuid_of org := by
      intro u hu
      obtain ⟨hact, hsvc, hosome, husome⟩ := husers u hu
      obtain ⟨org, horg⟩ := Option.isSome_iff_exists.mp hosome
      obtain ⟨uid, huid⟩ := Option.isSome_iff_exists.mp husome
      refine ⟨hact, hsvc, org, uid, horg, huid, ?_⟩
      exact hfindA org ((hmemA org).mpr ⟨u, hu, horg⟩)
    have hloop := import_bulk_users_loop_fresh bts users hloopall [] [] []
    unfold import_bulk_users
    simp only [bind, Except.bind]
    rw [hcoll]
    dsimp only
    rw [hgbt]
    dsimp only
    rw [hprins]
    dsimp only
    rw [hnoprin]
    simp only [List.filter_nil, List.map_nil]
    rw [hloop]
    dsimp only
    refine ⟨_, bev,
      { event_type := ReplicationEventType.BULK_EXTERNAL_USER_UPDATE
        partition_key := PartitionKey.byEnvironment S2.settings
        add := (users.map (fun u => (per_user_edits u).1)).flatten
        remove := (users.map (fun u => (per_user_edits u).2)).flatten },
      rfl, ?_, hbevty, rfl, rfl, rfl⟩
    simp only [replicate]
    rw [hev2]
    dsimp only
    rw [List.append_assoc]
    rfl
  · intro u hu
    obtain ⟨hact, hsvc, hosome, husome⟩ := husers u hu
    obtain ⟨org, horg⟩ := Option.isSome_iff_exists.mp hosome
    obtain ⟨uid, huid⟩ := Option.isSome_iff_exists.mp husome
    exact update_user_fresh_single u upsert org uid horg huid hact hsvc
      hnomap hws hcp hca hpworg hnames

/-- C5 counterexample: the original claim (every active user with org id and
user id gets the same per-user add/remove tuple sets on the bulk and single
paths) fails for service accounts.  `fix_user_svc` is an active user with an
org id and a user id, on a state with no pre-existing mappings.  Bulk import
computes one add tuple and one remove tuple for the user — the
`import_bulk_users` loop never checks `is_service_account` — while the
single-user `update_user` path computes none: its final event carries empty
add and remove lists. -/
theorem claim_c5_counterexample :
    fix_user_svc.is_active = true ∧
    fix_user_svc.org_id.isSome = true ∧
    fix_user_svc.user_id.isSome = true ∧
    fix_state_bulk.db.mappings = [] ∧
    (∃ Sb, import_bulk_users fix_state_bulk [fix_user_svc] = .ok Sb ∧
      Sb.events.map (fun (e : ReplicationEvent) => (e.add.length, e.remove.length)) =
        [(9, 0), (1, 1)]) ∧
    (∃ Ss b, update_user fix_state_bulk fix_user_svc true none = .ok (Ss, b) ∧
      Ss.events.map (fun (e : ReplicationEvent) => (e.add.length, e.remove.length)) =
        [(9, 0), (0, 0)]) := by
  refine ⟨rfl, rfl, rfl, rfl, ⟨_, rfl, ?_⟩, ⟨_, _, rfl, ?_⟩⟩
  · rfl
  · rfl

theorem claim_c5_witness :
    (∃ S bev uev,
      import_bulk_users fix_state_bulk [fix_user_admin, fix_user_plain] = .ok S ∧
      S.events = fix_state_bulk.events ++ [bev, uev] ∧
      bev.event_type = ReplicationEventType.BULK_BOOTSTRAP_TENANT ∧
      uev.event_type = ReplicationEventType.BULK_EXTERNAL_USER_UPDATE ∧
      uev.add = ([fix_user_admin, fix_user_plain].map
        (fun u => (per_user_edits u).1)).flatten ∧
      uev.remove = ([fix_user_admin, fix_user_plain].map
        (fun u => (per_user_edits u).2)).flatten) ∧
    (∀ u ∈ [fix_user_admin, fix_user_plain], ∃ S b pre ev,
      update_user fix_state_bulk u true none = .ok (S, some b) ∧
      S.events = fix_state_bulk.events ++ pre ++ [ev] ∧
      (∀ e ∈ pre, e.event_type = ReplicationEventType.BOOTSTRAP_TENANT) ∧
      ev.event_type = ReplicationEventType.EXTERNAL_USER_UPDATE ∧
      ev.add = (per_user_edits u).1 ∧ ev.remove = (per_user_edits u).2) :=
  claim_c5_bulk_matches_single_per_user [fix_user_admin, fix_user_plain] true
    rfl rfl rfl rfl rfl (by decide) (by decide) (by decide) (by decide)
    (by decide) (by decide)

end Rbac
